import Mathlib

/-!
Verification development for the form-submission processing pipeline of the
`override_project_integration` repository: the child-table mapping engine
(`api/child_table_utils.py`), the field mapper (`api/field_mapping.py`) and the
per-form-type processors / orchestration (`api/processors.py`).

Python values are modelled by the inductive type `Value`; Python dicts by
insertion-ordered association lists (`PyDict`), with `pySet` modelling
`d[k] = v` (replace in place, else append) and `dictUpdate` modelling
`d.update(e)`.  Machine floats are modelled by `ℚ` (every claim evaluates the
float paths only on exact decimal literals).  Code that can raise an uncaught
Python exception is modelled with `Option`, `none` standing for the raised
exception.  The ambient clock (`frappe.utils.now_datetime().year`,
`datetime.now().year`, `frappe.utils.now()`) is passed explicitly as a
parameter (`cy` : current year, `now` : timestamp string).
-/

/-- Model of a Python/JSON value as it appears in a form submission. -/
inductive Value where
  | none
  | bool (b : Bool)
  | int (n : Int)
  | num (q : ℚ)
  | str (s : String)
  | list (xs : List Value)
  | dict (xs : List (String × Value))

/-- A Python dict with string keys: insertion-ordered association list. -/
def PyDict := List (String × Value)

/-- Lookup in an insertion-ordered association list (`d.get(k)` / `d[k]`). -/
def lookupA {α : Type} (d : List (String × α)) (k : String) : Option α :=
  match d with
  | [] => Option.none
  | (k0, v0) :: t => if k0 == k then some v0 else lookupA t k

/-- `d[k] = v` on an association list: replace the existing binding in place,
else append (Python dict assignment keeps insertion order). -/
def upsertA {α : Type} (d : List (String × α)) (k : String) (v : α) :
    List (String × α) :=
  match d with
  | [] => [(k, v)]
  | (k0, v0) :: t => if k0 == k then (k0, v) :: t else (k0, v0) :: upsertA t k v

/-- `d.get(k)`: first binding for `k`. -/
def pyGet (d : PyDict) (k : String) : Option Value :=
  lookupA d k

/-- `d[k] = v`. -/
def pySet (d : PyDict) (k : String) (v : Value) : PyDict :=
  upsertA d k v

/-- `d.update(e)` on association lists: set every binding of `e` into `d`, in
order. -/
def updateA {α : Type} (d e : List (String × α)) : List (String × α) :=
  e.foldl (fun acc kv => upsertA acc kv.1 kv.2) d

/-- `d.update(e)` on dicts of values. -/
def dictUpdate (d e : PyDict) : PyDict :=
  updateA d e

/-- Python truthiness: `bool(v)`. -/
def pyTruthy : Value → Bool
  | .none => false
  | .bool b => b
  | .int n => n != 0
  | .num q => q != 0
  | .str s => s != ""
  | .list xs => !xs.isEmpty
  | .dict xs => !xs.isEmpty

/-- `str(v)` for the scalar values the pipeline applies it to.  The `list` and
`dict` cases are never reached by any claim; they are given a fixed placeholder
text standing for Python's container repr. -/
def pyStr : Value → String
  | .none => "None"
  | .bool b => if b then "True" else "False"
  | .int n => toString n
  | .num q => toString q
  | .str s => s
  | .list _ => "[...]"
  | .dict _ => "{...}"

/-- Python `s.strip()` (whitespace at both ends), implemented by structural
recursion on the character list so that concrete evaluation reduces inside the
kernel. -/
def strTrim (s : String) : String :=
  ⟨((s.data.dropWhile Char.isWhitespace).reverse.dropWhile Char.isWhitespace).reverse⟩

/-- `s.replace(c, "")` for a one-character pattern: removes every occurrence. -/
def strRemoveChar (s : String) (c : Char) : String :=
  ⟨s.data.filter (fun a => a != c)⟩

def isDigitCh (c : Char) : Bool := '0' ≤ c && c ≤ '9'

def digitVal (c : Char) : Nat := c.toNat - '0'.toNat

def natOfDigits (cs : List Char) : Nat :=
  cs.foldl (fun n c => n * 10 + digitVal c) 0

/-- `int(s)` on a string: optional sign then decimal digits, surrounding
whitespace allowed; anything else raises `ValueError` (`Option.none`). -/
def pyIntOfString (s : String) : Option Int :=
  let cs := (strTrim s).data
  let core : List Char → Option Int := fun ds =>
    if ds.isEmpty then Option.none
    else if ds.all isDigitCh then some (natOfDigits ds : Int) else Option.none
  match cs with
  | '+' :: t => core t
  | '-' :: t => (core t).map (fun n => -n)
  | t => core t

/-- `int(v)`: strings are parsed, bools and ints pass through, floats truncate
toward zero; other values raise (`Option.none`). -/
def pyInt : Value → Option Int
  | .str s => pyIntOfString s
  | .int n => some n
  | .num q => some (q.num.tdiv (q.den : Int))
  | .bool b => some (if b then 1 else 0)
  | _ => Option.none

/-- `float(s)` on a string, for finite decimal literals: optional sign, digits,
optional fraction part.  Exponent, `inf`/`nan` and underscore forms are not
modelled (no claim exercises them). -/
def parseUnsignedDec (cs : List Char) : Option ℚ :=
  let a := cs.takeWhile isDigitCh
  let rest := cs.dropWhile isDigitCh
  match rest with
  | [] => if a.isEmpty then Option.none else some (natOfDigits a : ℚ)
  | '.' :: frac =>
      if frac.all isDigitCh && !(a.isEmpty && frac.isEmpty) then
        some ((natOfDigits (a ++ frac) : ℚ) / ((10 : ℚ) ^ frac.length))
      else Option.none
  | _ => Option.none

def pyFloatOfString (s : String) : Option ℚ :=
  match (strTrim s).data with
  | '+' :: t => parseUnsignedDec t
  | '-' :: t => (parseUnsignedDec t).map (fun q => -q)
  | t => parseUnsignedDec t

/-- `float(v)`: strings are parsed, numbers and bools convert; other values
raise (`Option.none`). -/
def pyFloat : Value → Option ℚ
  | .str s => pyFloatOfString s
  | .int n => some (n : ℚ)
  | .num q => some q
  | .bool b => some (if b then 1 else 0)
  | _ => Option.none

/-- Substring test on char lists (`needle in hay` for Python strings). -/
def listStartsWith : List Char → List Char → Bool
  | _, [] => true
  | [], _ :: _ => false
  | a :: as, b :: bs => a == b && listStartsWith as bs

def listHasSub : List Char → List Char → Bool
  | [], needle => needle.isEmpty
  | h :: t, needle => listStartsWith (h :: t) needle || listHasSub t needle

/-- Python `needle in hay` on strings. -/
def strContains (hay needle : String) : Bool :=
  listHasSub hay.data needle.data


/-! ## ChildTableProcessor: field cleaning primitives and field processors
(`api/child_table_utils.py`) -/

/-- `ChildTableProcessor._clean_field_value`. -/
def clean_field_value : Value → Option Value
  | .none => Option.none
  | .str s => if strTrim s == "" then Option.none else some (.str (strTrim s))
  | v => some v

/-- `ChildTableProcessor._process_workers_count`. -/
def process_workers_count (value : Value) : Option Value :=
  if !pyTruthy value then Option.none
  else
    match pyInt value with
    | some n => if n < 0 then some (.str "0") else some (.str (toString n))
    | Option.none =>
        if strTrim (pyStr value) == "" then Option.none else some (.str (strTrim (pyStr value)))

/-- `ChildTableProcessor._process_currency_amount`. -/
def process_currency_amount (value : Value) : Option Value :=
  if !pyTruthy value then Option.none
  else
    let amount_str := strTrim (strRemoveChar (strRemoveChar (pyStr value) ',') ' ')
    match pyFloatOfString amount_str with
    | some q => if q ≥ 0 then some (.num q) else Option.none
    | Option.none => Option.none

/-- `ChildTableProcessor._process_project_description`. -/
def process_project_description (value : Value) (form_data : PyDict) : Option Value :=
  if !pyTruthy value then Option.none
  else
    let description := strTrim (pyStr value)
    let description :=
      match pyGet form_data "products" with
      | some products =>
          if pyTruthy products && strTrim (pyStr products) != "" then
            let products_str := strTrim (pyStr products)
            if !strContains description products_str then
              description ++ "\n\nProducts: " ++ products_str
            else description
          else description
      | Option.none => description
    if description != "" then some (.str description) else Option.none

/-- `ChildTableProcessor._process_address_info`. -/
def process_address_info (form_data : PyDict) : Option Value :=
  let part : String → String → Option String := fun key label =>
    match pyGet form_data key with
    | some v => if pyTruthy v && strTrim (pyStr v) != "" then some (label ++ strTrim (pyStr v)) else Option.none
    | Option.none => Option.none
  let parts := [part "governorate" "Province: ", part "district" "District: ",
                part "neighborhood" "Neighborhood: ", part "street" "Street: "].filterMap id
  if parts.isEmpty then Option.none else some (.str (String.intercalate ", " parts))

/-- `ChildTableProcessor._process_graduation_year` (`cy` models
`frappe.utils.now_datetime().year`). -/
def process_graduation_year (cy : Int) (value : Value) : Option Value :=
  if !pyTruthy value then Option.none
  else
    match pyInt value with
    | some y => if 1950 ≤ y && y ≤ cy + 10 then some (.int y) else Option.none
    | Option.none => Option.none

/-- `ChildTableProcessor._process_quantity`. -/
def process_quantity (value : Value) : Option Value :=
  if !pyTruthy value then Option.none
  else
    match pyFloatOfString (strTrim (strRemoveChar (pyStr value) ',')) with
    | some q => if q ≥ 0 then some (.num q) else Option.none
    | Option.none => Option.none

/-- `ChildTableProcessor._apply_field_processor` (unknown processor names pass
the value through). -/
def apply_field_processor (cy : Int) (processor_method : String) (value : Value)
    (_form_field : String) (form_data : PyDict) : Option Value :=
  if processor_method == "process_workers_count" then process_workers_count value
  else if processor_method == "process_currency_amount" then process_currency_amount value
  else if processor_method == "process_project_description" then
    process_project_description value form_data
  else if processor_method == "process_address_info" then process_address_info form_data
  else if processor_method == "process_graduation_year" then process_graduation_year cy value
  else if processor_method == "process_quantity" then process_quantity value
  else some value

/-- `ChildTableProcessor._has_education_data`. -/
def has_education_data (form_data : PyDict) : Bool :=
  ["educationPlace", "educationMajor", "graduationYear"].any fun f =>
    match pyGet form_data f with
    | some v => pyTruthy v && strTrim (pyStr v) != ""
    | Option.none => false

/-- `ChildTableProcessor._check_condition` (unknown condition names are true). -/
def check_condition (condition_method : String) (form_data : PyDict) : Bool :=
  if condition_method == "has_education_data" then has_education_data form_data
  else true

/-! ## ChildTableProcessor: per-table engine -/

/-- One entry of `ChildTableProcessor._get_child_table_configs`.  A `Option.none`
target in `field_mappings` is the config's `None` ("not mapped"). -/
structure TableConfig where
  child_doctype : String
  required_fields : List String
  field_mappings : List (String × Option String)
  field_processors : List (String × String)
  defaults : PyDict
  array_source : Option String
  condition : Option String

/-- The reverse index built in `_process_single_table`: source form fields of a
target field, in mapping order. -/
def target_field_sources (fm : List (String × Option String)) (df : String) : List String :=
  fm.filterMap fun p => if p.2 == some df then some p.1 else Option.none

/-- `row.get(f)` (absent key reads as `None`). -/
def rowGet (row : PyDict) (f : String) : Value :=
  (pyGet row f).getD Value.none

/-- The processor pass of `_process_single_table`: row so far and the set of
consumed source fields. -/
def single_proc_pass (cy : Int) (cfg : TableConfig) (fd : PyDict) : PyDict × List String :=
  cfg.field_processors.foldl
    (fun st p =>
      match target_field_sources cfg.field_mappings p.1 with
      | [] => st
      | first_source :: restSources =>
          let pv := apply_field_processor cy p.2 ((pyGet fd first_source).getD Value.none)
            first_source fd
          let row := match pv with
            | some v => pySet st.1 p.1 v
            | Option.none => st.1
          (row, st.2 ++ (first_source :: restSources)))
    ([], [])

/-- The direct-mapping pass of `_process_single_table`, including the
fan-in accumulation special case for `project_detials`. -/
def single_direct_pass (cfg : TableConfig) (fd : PyDict) (start : PyDict)
    (processed : List String) : PyDict :=
  cfg.field_mappings.foldl
    (fun row p =>
      match p.2 with
      | Option.none => row
      | some df =>
          if processed.contains p.1 then row
          else
            match pyGet fd p.1 with
            | Option.none => row
            | some .none => row
            | some raw =>
                match clean_field_value raw with
                | Option.none => row
                | some cleaned =>
                    if (target_field_sources cfg.field_mappings df).length > 1 then
                      if df == "project_detials" then
                        let existing := (pyGet row df).getD (.str "")
                        if pyTruthy existing then
                          pySet row df (.str (pyStr existing ++ "\n\n" ++ pyStr cleaned))
                        else pySet row df cleaned
                      else pySet row df cleaned
                    else pySet row df cleaned)
    start

/-- The single candidate row of `_process_single_table` before the defaults
merge. -/
def single_row_core (cy : Int) (cfg : TableConfig) (fd : PyDict) : PyDict :=
  let st := single_proc_pass cy cfg fd
  single_direct_pass cfg fd st.1 st.2

/-- The candidate row after `table_row.update(defaults)`. -/
def merged_single_row (cy : Int) (cfg : TableConfig) (fd : PyDict) : PyDict :=
  dictUpdate (single_row_core cy cfg fd) cfg.defaults

/-- The processor pass and direct pass for one element of an array-sourced
table (`_process_array_table` loop body), before the defaults merge. -/
def array_row_core (cy : Int) (cfg : TableConfig) (row_data : PyDict) : PyDict :=
  let afterProc := cfg.field_processors.foldl
    (fun row p =>
      match cfg.field_mappings.find? (fun m => m.2 == some p.1) with
      | some m =>
          if (pyGet row_data m.1).isSome then
            match apply_field_processor cy p.2 ((pyGet row_data m.1).getD Value.none)
                m.1 row_data with
            | some v => pySet row p.1 v
            | Option.none => row
          else row
      | Option.none => row)
    []
  cfg.field_mappings.foldl
    (fun row p =>
      match p.2 with
      | Option.none => row
      | some df =>
          if (pyGet row df).isSome then row
          else
            match pyGet row_data p.1 with
            | Option.none => row
            | some .none => row
            | some raw =>
                match clean_field_value raw with
                | some cleaned => pySet row df cleaned
                | Option.none => row)
    afterProc

/-- `ChildTableProcessor._process_array_table`. -/
def process_array_table (cy : Int) (cfg : TableConfig) (array_data : Value) :
    Option (List PyDict) :=
  match array_data with
  | .list xs =>
      if xs.isEmpty then Option.none
      else
        let rows := xs.foldl
          (fun acc x =>
            match x with
            | .dict rd =>
                let r := dictUpdate (array_row_core cy cfg rd) cfg.defaults
                if r.isEmpty then acc else acc ++ [r]
            | _ => acc)
          []
        if rows.isEmpty then Option.none else some rows
  | _ => Option.none

/-- `ChildTableProcessor._process_single_table`. -/
def process_single_table (cy : Int) (cfg : TableConfig) (fd : PyDict) :
    Option (List PyDict) :=
  let arrayBranch : Bool :=
    match cfg.array_source with
    | some src => src != "" && (pyGet fd src).isSome
    | Option.none => false
  if arrayBranch then
    process_array_table cy cfg ((pyGet fd (cfg.array_source.getD "")).getD Value.none)
  else
    let table_row := merged_single_row cy cfg fd
    if !cfg.required_fields.isEmpty then
      if cfg.required_fields.any (fun f => pyTruthy (rowGet table_row f)) then
        if table_row.isEmpty then Option.none else some [table_row]
      else Option.none
    else if table_row.isEmpty then Option.none else some [table_row]

/-- `ChildTableProcessor.process_child_tables`. -/
def process_child_tables (cy : Int) (configs : List (String × TableConfig))
    (fd : PyDict) : List (String × List PyDict) :=
  configs.foldl
    (fun acc p =>
      let condOk := match p.2.condition with
        | some cm => check_condition cm fd
        | Option.none => true
      if !condOk then acc
      else
        match process_single_table cy p.2 fd with
        | some rows => if rows.isEmpty then acc else upsertA acc p.1 rows
        | Option.none => acc)
    []

/-- The per-row checks of `ChildTableProcessor.validate_child_table_data`. -/
def validate_child_row (cy : Int) (table_name : String) (required : List String)
    (row : PyDict) : List String :=
  let es := required.foldl
    (fun es f =>
      if !pyTruthy (rowGet row f) then es ++ ["Field \x27" ++ f ++ "\x27 is required"]
      else es)
    []
  if table_name == "project" then
    let es := match rowGet row "amount_capital" with
      | .none => es
      | v => match pyFloat v with
          | some _ => es
          | Option.none => es ++ ["Capital amount must be a valid number"]
    match rowGet row "number_of_workers" with
    | .none => es
    | v => match pyInt v with
        | some _ => es
        | Option.none => es ++ ["Number of workers must be a valid number"]
  else if table_name == "education" then
    match rowGet row "year_of_passing" with
    | .none => es
    | v => match pyInt v with
        | some y =>
            if !(1950 ≤ y && y ≤ cy + 10) then
              es ++ ["Graduation year must be between 1950 and current year"]
            else es
        | Option.none => es ++ ["Graduation year must be a valid number"]
  else es

/-- `ChildTableProcessor.validate_child_table_data`. -/
def validate_child_table_data (cy : Int) (configs : List (String × TableConfig))
    (table_name : String) (table_data : List PyDict) :
    Bool × List (String × List String) :=
  if table_data.isEmpty then (true, [])
  else
    let required := match configs.find? (fun p => p.1 == table_name) with
      | some p => p.2.required_fields
      | Option.none => []
    let errors := table_data.enum.foldl
      (fun acc p =>
        let row_errors := validate_child_row cy table_name required p.2
        if row_errors.isEmpty then acc
        else upsertA acc (table_name ++ "_row_" ++ toString p.1) row_errors)
      []
    (errors.isEmpty, errors)

/-! ## The "Micro Enterprise Request" child-table configuration -/

def projectTableConfig : TableConfig :=
  { child_doctype := "Project Details"
    required_fields := ["project_name"]
    field_mappings := [("projectName", some "project_name"),
      ("projectDescription", some "project_detials"),
      ("workersCount", some "number_of_workers"),
      ("capital", some "amount_capital"),
      ("products", some "project_detials"),
      ("startDate", Option.none),
      ("projectStatus", Option.none)]
    field_processors := [("number_of_workers", "process_workers_count"),
      ("amount_capital", "process_currency_amount"),
      ("project_detials", "process_project_description")]
    defaults := []
    array_source := Option.none
    condition := Option.none }

def addressTableConfig : TableConfig :=
  { child_doctype := "Address Details"
    required_fields := ["city_name"]
    field_mappings := [("governorate", some "city_name"),
      ("district", some "directorate_name"),
      ("neighborhood", some "district_name"),
      ("street", some "district_name_info")]
    field_processors := []
    defaults := [("accommodation_type", .str "Owned")]
    array_source := Option.none
    condition := Option.none }

def educationTableConfig : TableConfig :=
  { child_doctype := "Employee Education"
    required_fields := []
    field_mappings := [("qualification", some "qualification"),
      ("school_univ", some "school_univ"),
      ("level", some "level"),
      ("year_of_passing", some "year_of_passing"),
      ("class_per", some "class_per"),
      ("maj_opt_subj", some "maj_opt_subj")]
    field_processors := [("year_of_passing", "process_graduation_year")]
    defaults := []
    array_source := some "educations"
    condition := Option.none }

def productivityTableConfig : TableConfig :=
  { child_doctype := "Productivity"
    required_fields := []
    field_mappings := [("quantity", some "quantity"), ("unit", some "unit")]
    field_processors := [("quantity", "process_quantity")]
    defaults := []
    array_source := some "productions"
    condition := Option.none }

/-- `_get_child_table_configs()["Micro Enterprise Request"]`, in insertion
order. -/
def microEnterpriseConfigs : List (String × TableConfig) :=
  [("project", projectTableConfig),
   ("address_details", addressTableConfig),
   ("education", educationTableConfig),
   ("productivity", productivityTableConfig)]

/-! ## FieldMapper and ValidationHelper (`api/field_mapping.py`) -/

def isAlphaCh (c : Char) : Bool := ('a' ≤ c && c ≤ 'z') || ('A' ≤ c && c ≤ 'Z')

/-- Character classes of the email regex
`^[a-zA-Z0-9._%+-]+@[a-zA-Z0-9.-]+\.[a-zA-Z]{2,}$`. -/
def emailLocalCh (c : Char) : Bool :=
  isAlphaCh c || isDigitCh c || c == '.' || c == '_' || c == '%' || c == '+' || c == '-'

def emailDomainCh (c : Char) : Bool :=
  isAlphaCh c || isDigitCh c || c == '.' || c == '-'

def emailTldOk (cs : List Char) : Bool := cs.length ≥ 2 && cs.all isAlphaCh

/-- Backtracking match of `[a-zA-Z0-9.-]+\.[a-zA-Z]{2,}$`; the flag records
whether at least one domain character has been consumed. -/
def emailDomainMatch : Bool → List Char → Bool
  | _, [] => false
  | nonempty, c :: rest =>
      (c == '.' && nonempty && emailTldOk rest) ||
      (emailDomainCh c && emailDomainMatch true rest)

def emailLocalMatch : Bool → List Char → Bool
  | _, [] => false
  | nonempty, c :: rest =>
      if c == '@' then nonempty && emailDomainMatch false rest
      else emailLocalCh c && emailLocalMatch true rest

/-- `re.match(r'^[a-zA-Z0-9._%+-]+@[a-zA-Z0-9.-]+\.[a-zA-Z]{2,}$', s)`. -/
def emailMatchStrict (s : String) : Bool := emailLocalMatch false s.data

def noAtNonempty (cs : List Char) : Bool := !cs.isEmpty && cs.all (fun c => c != '@')

/-- Backtracking match of `[^@]+\.[^@]+$`. -/
def emailSimpleTail : Bool → List Char → Bool
  | _, [] => false
  | pre, c :: rest =>
      if c == '@' then false
      else (c == '.' && pre && noAtNonempty rest) || emailSimpleTail true rest

def emailSimpleLocal : Bool → List Char → Bool
  | _, [] => false
  | pre, c :: rest =>
      if c == '@' then pre && emailSimpleTail false rest
      else emailSimpleLocal true rest

/-- `re.match(r'^[^@]+@[^@]+\.[^@]+$', s)` (the pattern used by the business
service validators). -/
def emailMatchSimple (s : String) : Bool := emailSimpleLocal false s.data

/-- `ValidationHelper.validate_email`.  `Option.none` models the uncaught
`AttributeError` when a truthy non-string reaches `email.strip()`. -/
def validate_email (email : Value) : Option (Bool × Option String) :=
  if !pyTruthy email then some (true, Option.none)
  else
    match email with
    | .str s =>
        let e := strTrim s
        if e == "" then some (true, Option.none)
        else if emailMatchStrict e then some (true, Option.none)
        else some (false, some "Invalid email format")
    | _ => Option.none

def phonePatternCh (c : Char) : Bool :=
  isDigitCh c || c == '+' || c == '-' || c == '(' || c == ')' || c.isWhitespace

/-- `ValidationHelper.validate_phone` (pattern `^[0-9+\-\s()]+$`). -/
def validate_phone (phone : Value) (min_length : Nat) : Bool × Option String :=
  if !pyTruthy phone then (false, some "Phone number is required")
  else
    let p := strTrim (pyStr phone)
    if p.length < min_length then
      (false, some ("Phone number must be at least " ++ toString min_length ++ " digits"))
    else if p != "" && p.data.all phonePatternCh then (true, Option.none)
    else (false, some "Phone number contains invalid characters")

/-- `ValidationHelper.validate_age`. -/
def validate_age (age : Value) (min_age max_age : Int) : Bool × Option String :=
  if !pyTruthy age then (false, some "Age is required")
  else
    match pyInt age with
    | some n =>
        if n < min_age || n > max_age then
          (false, some ("Age must be between " ++ toString min_age ++ " and " ++
            toString max_age))
        else (true, Option.none)
    | Option.none => (false, some "Age must be a valid number")

/-- `ValidationHelper.validate_currency` with the default
`allow_negative=False` used by the pipeline. -/
def validate_currency (amount : Value) : Bool × Option String × Option ℚ :=
  if !pyTruthy amount then (false, some "Amount is required", Option.none)
  else
    match pyFloatOfString (strTrim (strRemoveChar (strRemoveChar (pyStr amount) ',') ' ')) with
    | some q =>
        if q < 0 then (false, some "Amount must be a positive number", Option.none)
        else (true, Option.none, some q)
    | Option.none => (false, some "Amount must be a valid number", Option.none)

/-- `ValidationHelper.validate_required_field`. -/
def validate_required_field (value : Option Value) (field_name : String) :
    Bool × Option String :=
  match value with
  | Option.none => (false, some (field_name ++ " is required"))
  | some .none => (false, some (field_name ++ " is required"))
  | some v =>
      if strTrim (pyStr v) == "" then (false, some (field_name ++ " is required"))
      else (true, Option.none)

/-- Python `s.split()`: split on whitespace runs, dropping empty pieces. -/
def pySplitWsAux : List Char → List Char → List String
  | [], acc => if acc.isEmpty then [] else [⟨acc.reverse⟩]
  | c :: cs, acc =>
      if c.isWhitespace then
        if acc.isEmpty then pySplitWsAux cs [] else ⟨acc.reverse⟩ :: pySplitWsAux cs []
      else pySplitWsAux cs (c :: acc)

def pySplitWs (s : String) : List String :=
  pySplitWsAux s.data []

/-- `FieldMapper._age_to_birth_date` (`cy` models `datetime.now().year`). -/
def age_to_birth_date (cy : Int) (age : Value) : Option Value :=
  if !pyTruthy age then Option.none
  else
    match pyInt age with
    | some a =>
        if 0 < a && a ≤ 150 then some (.str (toString (cy - a) ++ "-01-01"))
        else Option.none
    | Option.none => Option.none

/-- `FieldMapper._extract_first_name`. -/
def extract_first_name (full_name : Value) : Option Value :=
  if !pyTruthy full_name then Option.none
  else
    let s := strTrim (pyStr full_name)
    if s == "" then Option.none
    else
      match pySplitWs s with
      | p :: _ => some (.str p)
      | [] => some (.str s)

/-- `FieldMapper._copy_full_name`. -/
def copy_full_name (full_name : Value) : Option Value :=
  if !pyTruthy full_name then Option.none
  else
    let s := strTrim (pyStr full_name)
    if s == "" then Option.none else some (.str s)

/-- `FieldMapper._build_full_name`.  The computation receives the raw source
value; a non-dict yields `None`.  A dict whose name parts are not strings
raises `AttributeError` at `.strip()`; that branch is unreachable from the
shipped configuration and is modelled as `Option.none` too. -/
def build_full_name (v : Value) : Option Value :=
  match v with
  | .dict d =>
      let comp : String → Option String := fun k =>
        match (pyGet d k).getD (.str "") with
        | .str s => some (strTrim s)
        | _ => Option.none
      match comp "firstName", comp "middleName", comp "lastName" with
      | some f, some m, some l =>
          let parts := [f, m, l].filter (fun s => s != "")
          if parts.isEmpty then Option.none
          else some (.str (String.intercalate " " parts))
      | _, _, _ => Option.none
  | _ => Option.none

/-- `FieldMapper._apply_computation` (unknown computation names yield `None`). -/
def apply_computation (cy : Int) (computation_method : String) (value : Value) :
    Option Value :=
  if computation_method == "age_to_birth_date" then age_to_birth_date cy value
  else if computation_method == "extract_first_name" then extract_first_name value
  else if computation_method == "copy_full_name" then copy_full_name value
  else if computation_method == "build_full_name" then build_full_name value
  else if computation_method == "extract_first_name_from_full" then extract_first_name value
  else Option.none

/-- One entry of a `computed_fields` configuration: target plus either a
computation name or a default value. -/
structure ComputedField where
  target : String
  computation : Option String
  dflt : Option Value

/-- One entry of the FieldMapper `child_tables` configuration. -/
structure FMChildTable where
  table_field : String
  fm_doctype : String
  fields : List (String × String)

/-- `FieldMappingConfig.MAPPINGS["small-project-register"]["main_fields"]`. -/
def smallMainFields : List (String × String) :=
  [("ownerFullName", "family_name"), ("firstName", "first_name"),
   ("middleName", "middle_name"), ("lastName", "last_name"),
   ("gender", "gender"), ("age", "age"), ("birthDate", "date_of_birth"),
   ("workJoinDate", "date_of_joining"), ("primaryPhone", "cell_number"),
   ("secondaryPhone", "emergency_phone_number"), ("email", "personal_email"),
   ("emergencyContactName", "person_to_be_contacted"),
   ("emergencyContactPhone", "emergency_phone_number"),
   ("emergencyRelation", "relation"), ("projectName", "project_name"),
   ("projectDescription", "project_detials"), ("projectStatus", "status"),
   ("familyInfo", "family_background"), ("idNumber", "token_id"),
   ("governorate", "governorate"), ("district", "district"),
   ("neighborhood", "neighborhood"), ("street", "street"),
   ("capital", "capital"), ("workersCount", "workersCount"),
   ("startDate", "startDate"), ("products", "products")]

/-- `...["computed_fields"]`. -/
def smallComputedFields : List (String × ComputedField) :=
  [("age", ⟨"date_of_birth", some "age_to_birth_date", Option.none⟩),
   ("ownerFullName", ⟨"family_name", some "copy_full_name", Option.none⟩),
   ("firstName", ⟨"first_name", some "extract_first_name_from_full", Option.none⟩)]

/-- `...["child_tables"]`. -/
def smallFMChildTables : List (String × FMChildTable) :=
  [("educations", ⟨"education", "Employee Education",
     [("qualification", "qualification"), ("school_univ", "school_univ"),
      ("level", "level"), ("year_of_passing", "year_of_passing"),
      ("class_per", "class_per"), ("maj_opt_subj", "maj_opt_subj")]⟩),
   ("projects", ⟨"project", "Project Details",
     [("project_name", "project_name"), ("project_detials", "project_detials"),
      ("sector_name", "sector_name"), ("sector_type_name", "sector_type_name"),
      ("sector_type_nam_info", "sector_type_nam_info"),
      ("sector_type_details_name", "sector_type_details_name"),
      ("sector_type_details_name_info", "sector_type_details_name_info"),
      ("number_of_workers", "number_of_workers"),
      ("amount_capital", "amount_capital")]⟩),
   ("productions", ⟨"productivity", "Productivity",
     [("quantity", "quantity"), ("unit", "unit")]⟩),
   ("addresses", ⟨"address_details", "Address Details",
     [("city_name", "city_name"), ("directorate_name", "directorate_name"),
      ("district_name", "district_name"), ("district_name_info", "district_name_info"),
      ("village_name", "village_name"), ("village_name_info", "village_name_info"),
      ("accommodation_type", "accommodation_type")]⟩)]

/-- `FieldMapper._map_main_fields` (trim strings, drop empties, keep
non-strings as they are). -/
def map_main_fields (mainFields : List (String × String)) (fd : PyDict) : PyDict :=
  mainFields.foldl
    (fun md p =>
      match pyGet fd p.1 with
      | Option.none => md
      | some .none => md
      | some (.str s) => if strTrim s != "" then pySet md p.2 (.str (strTrim s)) else md
      | some w => pySet md p.2 w)
    []

/-- `FieldMapper._map_computed_fields`. -/
def map_computed_fields (cy : Int) (computed : List (String × ComputedField))
    (fd : PyDict) : PyDict :=
  computed.foldl
    (fun md p =>
      match p.2.computation with
      | some cm =>
          match apply_computation cy cm ((pyGet fd p.1).getD Value.none) with
          | some cv => pySet md p.2.target cv
          | Option.none => md
      | Option.none =>
          match p.2.dflt with
          | some v => pySet md p.2.target v
          | Option.none => md)
    []

/-- The row-mapping helper shared by the branches of
`FieldMapper._map_child_tables`. -/
def fm_map_child_row (fields : List (String × String)) (rd : PyDict) : PyDict :=
  fields.foldl
    (fun mr p =>
      match pyGet rd p.1 with
      | Option.none => mr
      | some .none => mr
      | some (.str s) => if strTrim s != "" then pySet mr p.2 (.str (strTrim s)) else mr
      | some w => pySet mr p.2 w)
    []

/-- `FieldMapper._map_child_tables`. -/
def fm_map_child_tables (cts : List (String × FMChildTable)) (fd : PyDict) :
    List (String × List PyDict) :=
  cts.foldl
    (fun out p =>
      if p.1 == "project_data" then
        let project_data := fm_map_child_row p.2.fields fd
        if project_data.isEmpty then out else upsertA out "project" [project_data]
      else if p.1 == "address_data" then
        let address_data := fm_map_child_row p.2.fields fd
        if address_data.isEmpty then out else upsertA out "address_details" [address_data]
      else
        match pyGet fd p.1 with
        | some (.list rows) =>
            let table_data_list := rows.foldl
              (fun acc r =>
                match r with
                | .dict rd =>
                    let mr := fm_map_child_row p.2.fields rd
                    if mr.isEmpty then acc else acc ++ [mr]
                | _ => acc)
              []
            if table_data_list.isEmpty then out
            else upsertA out p.2.table_field table_data_list
        | _ => out)
    []

/-- `FieldMapper("small-project-register").map_form_data`.  The first
component is the `form_data` dict as it stands after the call: the mapper only
reads its input, so it is returned unchanged. -/
def fm_map_form_data (cy : Int) (fd : PyDict) :
    PyDict × PyDict × List (String × List PyDict) :=
  let main_data := dictUpdate (dictUpdate [] (map_main_fields smallMainFields fd))
    (map_computed_fields cy smallComputedFields fd)
  (fd, main_data, fm_map_child_tables smallFMChildTables fd)

/-! ## Per-form-type validators (`api/processors.py`) -/

/-- The nested `errors` dict built by validators and `process_form`.  Possible
top-level keys: `field_errors`, `child_table_errors`, `general`, `token_id`.
The code creates a key only when it first adds to it, so a component is a
present dict key iff it is nonempty. -/
structure VErrors where
  field_errors : List (String × List String)
  child_table_errors : List (String × List String)
  general : List String
  token_id : List String

def VErrors.empty : VErrors := ⟨[], [], [], []⟩

/-- `len(errors)`: the number of top-level keys present. -/
def VErrors.numKeys (e : VErrors) : Nat :=
  (if e.field_errors.isEmpty then 0 else 1) +
  (if e.child_table_errors.isEmpty then 0 else 1) +
  (if e.general.isEmpty then 0 else 1) +
  (if e.token_id.isEmpty then 0 else 1)

/-- `errors["field_errors"][k] = msgs` (creating the `field_errors` key if
needed). -/
def addFE (e : VErrors) (k : String) (msgs : List String) : VErrors :=
  { e with field_errors := upsertA e.field_errors k msgs }

/-- The required-field loop shared by all validators, parametrized by the
per-field failure test and error message. -/
def checkRequired (failF : String → Option Value → Bool)
    (msgF : String → String → List String)
    (fd : PyDict) (reqs : List (String × String)) (e : VErrors) : VErrors :=
  reqs.foldl
    (fun acc p => if failF p.1 (pyGet fd p.1) then addFE acc p.1 (msgF p.1 p.2) else acc)
    e

/-- `not value or (isinstance(value, str) and not value.strip())`. -/
def reqFailPy : Option Value → Bool
  | Option.none => true
  | some v => !pyTruthy v || (match v with | .str s => strTrim s == "" | _ => false)

/-- Failure of `ValidationHelper.validate_required_field`. -/
def vrfFail (v : Option Value) : Bool :=
  !(validate_required_field v "").1

/-- The standard required-field message. -/
def stdMsgF (_f label : String) : List String := [label ++ " is required"]

/-- The inline `int(x)` range check of the training-style validators and the
contract-opportunity `experienceYears` check. -/
def intRangeCheck (fd : PyDict) (key : String) (lo hi : Int) (label : String)
    (e : VErrors) : VErrors :=
  match pyGet fd key with
  | Option.none => e
  | some v =>
      if pyTruthy v then
        match pyInt v with
        | some n =>
            if n < lo || n > hi then
              addFE e key [label ++ " must be between " ++ toString lo ++ " and " ++
                toString hi]
            else e
        | Option.none => addFE e key [label ++ " must be a valid number"]
      else e

/-- `re.sub(r'[^\d+]', '', s)`. -/
def phoneDigitsPlus (s : String) : String :=
  ⟨s.data.filter (fun c => isDigitCh c || c == '+')⟩

/-- The inline ≥9-digit phone check.  A truthy non-string raises `TypeError`
inside `re.sub` (uncaught). -/
def phoneCheck9 (fd : PyDict) (key : String) (e : VErrors) : Option VErrors :=
  match pyGet fd key with
  | Option.none => some e
  | some v =>
      if pyTruthy v then
        match v with
        | .str s =>
            some (if (phoneDigitsPlus s).length < 9 then
                addFE e key ["Phone number must be at least 9 digits"]
              else e)
        | _ => Option.none
      else some e

/-- `TrainingProgramProcessor` (and `TrainingAdProcessor`) required fields. -/
def trainingRequired : List (String × String) :=
  [("fullName", "Full Name"), ("phone", "Phone"), ("city", "City"), ("age", "Age")]

/-- `TrainingProgramProcessor.validate_form_data`. -/
def training_program_validate (fd : PyDict) : Option (Bool × VErrors) :=
  let e := checkRequired (fun _ v => reqFailPy v) stdMsgF fd trainingRequired VErrors.empty
  let e := intRangeCheck fd "age" 16 100 "Age" e
  (phoneCheck9 fd "phone" e).map (fun e => (e.numKeys == 0, e))

def volunteerRequired : List (String × String) :=
  [("fullName", "Full Name"), ("phone", "Phone"), ("city", "City"), ("age", "Age"),
   ("favField", "Favorite Field")]

/-- `VolunteerProgramProcessor.validate_form_data`. -/
def volunteer_program_validate (fd : PyDict) : Option (Bool × VErrors) :=
  let e := checkRequired (fun _ v => reqFailPy v) stdMsgF fd volunteerRequired VErrors.empty
  let e := intRangeCheck fd "age" 16 100 "Age" e
  (phoneCheck9 fd "phone" e).map (fun e => (e.numKeys == 0, e))

/-- `TrainingAdProcessor.validate_form_data` (same body as the
training-program validator). -/
def training_ad_validate (fd : PyDict) : Option (Bool × VErrors) :=
  let e := checkRequired (fun _ v => reqFailPy v) stdMsgF fd trainingRequired VErrors.empty
  let e := intRangeCheck fd "age" 16 100 "Age" e
  (phoneCheck9 fd "phone" e).map (fun e => (e.numKeys == 0, e))

/-- `not value or not isinstance(value, list) or len(value) == 0`. -/
def tfFail : Option Value → Bool
  | Option.none => true
  | some v => !pyTruthy v || (match v with | .list xs => xs.isEmpty | _ => true)

def tsFailF (f : String) (v : Option Value) : Bool :=
  if f == "trainingFields" then tfFail v else reqFailPy v

def tsMsgF (f label : String) : List String :=
  if f == "trainingFields" then ["At least one training field must be selected"]
  else [label ++ " is required"]

def trainingServiceRequired : List (String × String) :=
  [("fullName", "Full Name"), ("phone", "Phone"), ("city", "City"), ("age", "Age"),
   ("trainingFields", "Training Fields")]

def validTrainingFields : List String :=
  ["تصنيع غذائي", "خياطة", "حرف", "ريادة أعمال",
   "تدريب مهني ومعرفي لأصحاب المشاريع الصغيرة"]

/-- Python `==` between an arbitrary value and a string. -/
def valueEqStr (v : Value) (s : String) : Bool :=
  match v with
  | .str t => t == s
  | _ => false

/-- `for x in v`: lists yield elements, strings yield 1-character strings,
dicts yield their keys; other values raise `TypeError`. -/
def pyIterate : Value → Option (List Value)
  | .list xs => some xs
  | .str s => some (s.data.map (fun c => .str (String.mk [c])))
  | .dict d => some (d.map (fun kv => .str kv.1))
  | _ => Option.none

/-- `sep.join(vs)`: `TypeError` if any element is not a string. -/
def strJoinValues (sep : String) (vs : List Value) : Option String :=
  (vs.foldr
    (fun v acc =>
      match acc, v with
      | some l, .str s => some (s :: l)
      | _, _ => Option.none)
    (some [])).map (String.intercalate sep)

/-- The `trainingFields` membership check of
`TrainingServiceProcessor.validate_form_data`. -/
def tsTrainingFieldsCheck (fd : PyDict) (e : VErrors) : Option VErrors :=
  let training_fields := (pyGet fd "trainingFields").getD (.list [])
  if pyTruthy training_fields then
    match pyIterate training_fields with
    | some elems =>
        let invalid := elems.filter (fun f => validTrainingFields.all (fun t => !valueEqStr f t))
        if invalid.isEmpty then some e
        else
          match strJoinValues ", " invalid with
          | some joined =>
              some (addFE e "trainingFields" ["Invalid training fields: " ++ joined])
          | Option.none => Option.none
    | Option.none => Option.none
  else some e

/-- `TrainingServiceProcessor.validate_form_data`. -/
def training_service_validate (fd : PyDict) : Option (Bool × VErrors) :=
  let e := checkRequired tsFailF tsMsgF fd trainingServiceRequired VErrors.empty
  let e := intRangeCheck fd "age" 16 100 "Age" e
  match phoneCheck9 fd "phone" e with
  | some e => (tsTrainingFieldsCheck fd e).map (fun e => (e.numKeys == 0, e))
  | Option.none => Option.none

/-- `re.sub(r'[^\d.]', '', s)`. -/
def filterDigitsDots (s : String) : String :=
  ⟨s.data.filter (fun c => isDigitCh c || c == '.')⟩

def promoteRequired : List (String × String) :=
  [("projectName", "Project Name"), ("projectDescription", "Project Description")]

/-- The optional `price` check of `_validate_promote_project`: guarded by
`price and price.strip()` (truthy non-strings raise at `.strip()`); the
`float(re.sub(...))` conversion errors are caught. -/
def promotePriceCheck (fd : PyDict) (e : VErrors) : Option VErrors :=
  match pyGet fd "price" with
  | Option.none => some e
  | some v =>
      if pyTruthy v then
        match v with
        | .str s =>
            if strTrim s != "" then
              some (match pyFloatOfString (filterDigitsDots s) with
                | some q =>
                    if q < 0 then addFE e "price" ["Price must be a positive number"] else e
                | Option.none => addFE e "price" ["Price must be a valid number"])
            else some e
        | _ => Option.none
      else some e

/-- `BusinessServiceProcessor._validate_promote_project`. -/
def promote_project_validate (fd : PyDict) : Option (Bool × VErrors) :=
  let e := checkRequired (fun _ v => reqFailPy v) stdMsgF fd promoteRequired VErrors.empty
  (promotePriceCheck fd e).map (fun e => (e.numKeys == 0, e))

def specsRequired : List (String × String) :=
  [("projectType", "Project Type"), ("projectName", "Project Name"),
   ("projectStatus", "Project Status"), ("startDate", "Start Date"),
   ("capital", "Capital"), ("location", "Location"), ("ownerName", "Owner Name"),
   ("gender", "Gender"), ("birthDate", "Birth Date"),
   ("educationLevel", "Education Level"), ("currentAddress", "Current Address"),
   ("phone", "Phone")]

/-- The enumerated-value checks of `_validate_specs_memo_request`
(`x and x not in valid` with list membership by `==`). -/
def enumCheck (fd : PyDict) (key : String) (valid : List String) (msg : String)
    (e : VErrors) : VErrors :=
  match pyGet fd key with
  | Option.none => e
  | some v =>
      if pyTruthy v && valid.all (fun t => !valueEqStr v t) then addFE e key [msg] else e

/-- The `capital` check of `_validate_specs_memo_request`: both `ValueError`
and `TypeError` from `float(re.sub(...))` are caught, so a truthy non-string
capital yields the invalid-number error. -/
def specsCapitalCheck (fd : PyDict) (e : VErrors) : VErrors :=
  match pyGet fd "capital" with
  | Option.none => e
  | some v =>
      if pyTruthy v then
        match v with
        | .str s =>
            match pyFloatOfString (filterDigitsDots s) with
            | some q =>
                if q < 0 then addFE e "capital" ["Capital must be a positive number"] else e
            | Option.none => addFE e "capital" ["Capital must be a valid number"]
        | _ => addFE e "capital" ["Capital must be a valid number"]
      else e

/-- `BusinessServiceProcessor._validate_specs_memo_request`. -/
def specs_memo_validate (fd : PyDict) : Option (Bool × VErrors) :=
  let e := checkRequired (fun _ v => reqFailPy v) stdMsgF fd specsRequired VErrors.empty
  let e := enumCheck fd "projectType" ["صغير", "متناهي الصغر", "مشروع صغير قيد التأسيس"]
    "Invalid project type. Must be one of: صغير, متناهي الصغر, مشروع صغير قيد التأسيس" e
  let e := enumCheck fd "projectStatus" ["نشط", "غير نشط"]
    "Invalid project status. Must be one of: نشط, غير نشط" e
  let e := enumCheck fd "gender" ["ذكر", "أنثى"] "Invalid gender. Must be one of: ذكر, أنثى" e
  let e := enumCheck fd "educationLevel" ["مدرسة", "جامعة", "معهد"]
    "Invalid education level. Must be one of: مدرسة, جامعة, معهد" e
  match phoneCheck9 fd "phone" e with
  | some e => some (let e := specsCapitalCheck fd e; (e.numKeys == 0, e))
  | Option.none => Option.none

def contractRequired : List (String × String) :=
  [("fullName", "Full Name"), ("phone", "Phone"), ("email", "Email"),
   ("specialization", "Specialization"), ("experienceYears", "Experience Years"),
   ("field", "Field"), ("cvFile", "CV File")]

/-- The `email` check of `_validate_contract_opportunity`: `re.match` on a
truthy non-string raises `TypeError`. -/
def contractEmailCheck (fd : PyDict) (e : VErrors) : Option VErrors :=
  match pyGet fd "email" with
  | Option.none => some e
  | some v =>
      if pyTruthy v then
        match v with
        | .str s =>
            some (if emailMatchSimple s then e else addFE e "email" ["Invalid email format"])
        | _ => Option.none
      else some e

/-- `BusinessServiceProcessor._validate_contract_opportunity`. -/
def contract_opportunity_validate (fd : PyDict) : Option (Bool × VErrors) :=
  let e := checkRequired (fun _ v => reqFailPy v) stdMsgF fd contractRequired VErrors.empty
  match contractEmailCheck fd e with
  | some e =>
      match phoneCheck9 fd "phone" e with
      | some e =>
          some (let e := intRangeCheck fd "experienceYears" 0 50 "Experience years" e
                (e.numKeys == 0, e))
      | Option.none => Option.none
  | Option.none => Option.none

def contactRequired : List (String × String) :=
  [("fullName", "Full Name"), ("phone", "Phone"), ("subject", "Subject"),
   ("message", "Message")]

/-- The optional `email` check of `_validate_contact_form`: guarded by
`email and email.strip()`; the pattern is matched against the unstripped
value. -/
def contactEmailCheck (fd : PyDict) (e : VErrors) : Option VErrors :=
  match pyGet fd "email" with
  | Option.none => some e
  | some v =>
      if pyTruthy v then
        match v with
        | .str s =>
            if strTrim s != "" then
              some (if emailMatchSimple s then e else addFE e "email" ["Invalid email format"])
            else some e
        | _ => Option.none
      else some e

/-- `BusinessServiceProcessor._validate_contact_form`. -/
def contact_form_validate (fd : PyDict) : Option (Bool × VErrors) :=
  let e := checkRequired (fun _ v => reqFailPy v) stdMsgF fd contactRequired VErrors.empty
  match contactEmailCheck fd e with
  | some e => (phoneCheck9 fd "phone" e).map (fun e => (e.numKeys == 0, e))
  | Option.none => Option.none

/-- `BusinessServiceProcessor.validate_form_data`. -/
def business_service_validate (form_type : String) (fd : PyDict) :
    Option (Bool × VErrors) :=
  if form_type == "promote-project" then promote_project_validate fd
  else if form_type == "specs-memo-request" then specs_memo_validate fd
  else if form_type == "contract-opportunity" then contract_opportunity_validate fd
  else if form_type == "contact-form" then contact_form_validate fd
  else some (false,
    { VErrors.empty with
      general := ["Unsupported business service form type: " ++ form_type] })

/-! ## SmallProjectProcessor.validate_form_data -/

def smallRequired : List (String × String) :=
  [("ownerFullName", "Owner Full Name"), ("governorate", "Governorate"),
   ("district", "District"), ("neighborhood", "Neighborhood"),
   ("street", "Street"), ("age", "Age"), ("primaryPhone", "Primary Phone"),
   ("email", "Email"), ("projectName", "Project Name"),
   ("projectStatus", "Project Status"), ("capital", "Capital"),
   ("workersCount", "Workers Count"), ("startDate", "Start Date"),
   ("products", "Products"), ("projectDescription", "Project Description")]

/-- The guarded email check (`if email: validate_email(email)`). -/
def smallEmailCheck (fd : PyDict) (e : VErrors) : Option VErrors :=
  match pyGet fd "email" with
  | Option.none => some e
  | some v =>
      if pyTruthy v then
        (validate_email v).map (fun r => if r.1 then e else addFE e "email" [r.2.getD ""])
      else some e

/-- `if age: validate_age(age, min_age=18, max_age=100)`. -/
def smallAgeCheck (fd : PyDict) (e : VErrors) : VErrors :=
  match pyGet fd "age" with
  | Option.none => e
  | some v =>
      if pyTruthy v then
        let r := validate_age v 18 100
        if r.1 then e else addFE e "age" [r.2.getD ""]
      else e

/-- `if capital: validate_currency(capital)`. -/
def smallCapitalCheck (fd : PyDict) (e : VErrors) : VErrors :=
  match pyGet fd "capital" with
  | Option.none => e
  | some v =>
      if pyTruthy v then
        let r := validate_currency v
        if r.1 then e else addFE e "capital" [r.2.1.getD ""]
      else e

/-- The inline workers-count check. -/
def smallWorkersCheck (fd : PyDict) (e : VErrors) : VErrors :=
  match pyGet fd "workersCount" with
  | Option.none => e
  | some v =>
      if pyTruthy v then
        match pyInt v with
        | some n =>
            if n < 0 then addFE e "workersCount" ["Workers count must be a positive number"]
            else e
        | Option.none => addFE e "workersCount" ["Workers count must be a valid number"]
      else e

/-- `if phone: validate_phone(phone)` (default `min_length=7`), keyed under
`primaryPhone`. -/
def smallPhoneCheck (fd : PyDict) (e : VErrors) : VErrors :=
  match pyGet fd "primaryPhone" with
  | Option.none => e
  | some v =>
      if pyTruthy v then
        let r := validate_phone v 7
        if r.1 then e else addFE e "primaryPhone" [r.2.getD ""]
      else e

def statusMapping : List (String × String) :=
  [("قيد الفكرة", "Open"), ("قيد التنفيذ", "Open"), ("قائم", "Approved")]

/-- The `projectStatus` step of `SmallProjectProcessor.validate_form_data`: it
translates a recognized Arabic label by writing
`form_data["projectStatus"] = mapped` **in place**, or flags an unknown
status.  Unhashable values (lists, dicts) raise `TypeError` at the
dict-membership test. -/
def smallStatusStep (fd : PyDict) (e : VErrors) : Option (PyDict × VErrors) :=
  match pyGet fd "projectStatus" with
  | Option.none => some (fd, e)
  | some v =>
      if pyTruthy v then
        match v with
        | .list _ => Option.none
        | .dict _ => Option.none
        | _ =>
            match statusMapping.find? (fun p => valueEqStr v p.1) with
            | some p => some (pySet fd "projectStatus" (.str p.2), e)
            | Option.none =>
                if ["Open", "Approved", "Rejected", "Cancelled"].all
                    (fun t => !valueEqStr v t) then
                  some (fd, addFE e "projectStatus"
                    ["Invalid project status. Must be one of: قيد الفكرة, قيد التنفيذ, قائم"])
                else some (fd, e)
      else some (fd, e)

/-- The child-table validation pass at the end of
`SmallProjectProcessor.validate_form_data` (accumulates under the
`child_table_errors` key). -/
def smallChildTableStep (cy : Int) (fd : PyDict) (e : VErrors) : VErrors :=
  (process_child_tables cy microEnterpriseConfigs fd).foldl
    (fun e p =>
      let r := validate_child_table_data cy microEnterpriseConfigs p.1 p.2
      if !r.1 then { e with child_table_errors := updateA e.child_table_errors r.2 }
      else e)
    e

/-- `SmallProjectProcessor.validate_form_data`.  Returns the post-state of
`form_data` (possibly rewritten at `projectStatus`), the validity flag and the
errors; `Option.none` models an uncaught exception (non-string email, or an
unhashable `projectStatus`). -/
def small_project_validate (cy : Int) (fd : PyDict) :
    Option (PyDict × Bool × VErrors) :=
  let e := checkRequired (fun _ v => vrfFail v) stdMsgF fd smallRequired VErrors.empty
  match smallEmailCheck fd e with
  | Option.none => Option.none
  | some e =>
      let e := smallAgeCheck fd e
      let e := smallCapitalCheck fd e
      let e := smallWorkersCheck fd e
      let e := smallPhoneCheck fd e
      match smallStatusStep fd e with
      | Option.none => Option.none
      | some r =>
          let e := smallChildTableStep cy r.1 r.2
          some (r.1, e.numKeys == 0, e)

/-! ## Dispatch and orchestration (`get_form_processor`, `process_form`) -/

/-- The registry keys of `get_form_processor`. -/
def supportedFormTypes : List String :=
  ["small-project-register", "training-program", "volunteer-program",
   "training-service", "training-ad", "promote-project", "specs-memo-request",
   "contract-opportunity", "contact-form"]

/-- `get_form_processor(ft).validate_form_data(fd)`, with the small-project
validator's `form_data` post-state projected away.  An unsupported `ft` has no
processor (`Option.none`). -/
def validateFormData (cy : Int) (ft : String) (fd : PyDict) :
    Option (Bool × VErrors) :=
  if ft == "small-project-register" then
    (small_project_validate cy fd).map (fun r => (r.2.1, r.2.2))
  else if ft == "training-program" then training_program_validate fd
  else if ft == "volunteer-program" then volunteer_program_validate fd
  else if ft == "training-service" then training_service_validate fd
  else if ft == "training-ad" then training_ad_validate fd
  else if ft == "promote-project" || ft == "specs-memo-request" ||
      ft == "contract-opportunity" || ft == "contact-form" then
    business_service_validate ft fd
  else Option.none

/-- The required-field names of each supported form type, in declaration
order. -/
def requiredFieldNames (ft : String) : List String :=
  if ft == "small-project-register" then smallRequired.map Prod.fst
  else if ft == "training-program" then trainingRequired.map Prod.fst
  else if ft == "volunteer-program" then volunteerRequired.map Prod.fst
  else if ft == "training-service" then trainingServiceRequired.map Prod.fst
  else if ft == "training-ad" then trainingRequired.map Prod.fst
  else if ft == "promote-project" then promoteRequired.map Prod.fst
  else if ft == "specs-memo-request" then specsRequired.map Prod.fst
  else if ft == "contract-opportunity" then contractRequired.map Prod.fst
  else if ft == "contact-form" then contactRequired.map Prod.fst
  else []

def tokenChar (c : Char) : Bool := isAlphaCh c || isDigitCh c || c == '_' || c == '-'

/-- `TokenValidator.validate_token_format` on a string token: `some err` is a
format rejection (`^[a-zA-Z0-9_-]+$` on the trimmed token, length ≥ 5). -/
def validate_token_format (t : String) : Option String :=
  if t == "" then some "Token ID is required"
  else if (strTrim t).length < 5 then some "Token ID must be at least 5 characters long"
  else if !(strTrim t != "" && (strTrim t).data.all tokenChar) then
    some "Token ID contains invalid characters"
  else Option.none

/-- One record of the opaque persistence store. -/
structure DBRecord where
  rec_doctype : String
  name : String
  fields : PyDict
  child_tables : List (String × List PyDict)

/-- The persistence store: the set of registered DocTypes
(`frappe.db.exists("DocType", ·)`) and the created records. -/
structure DB where
  doctypes : List String
  records : List DBRecord

/-- `frappe.db.get_value(doctype, {"token_id": tok}, "name")`. -/
def dbGetTokenName (db : DB) (dt tok : String) : Option String :=
  (db.records.find?
    (fun r => r.rec_doctype == dt &&
      (match pyGet r.fields "token_id" with
       | some (.str s) => s == tok
       | _ => false))).map (fun r => r.name)

/-- `TokenValidator.check_duplicate_token`. -/
def check_duplicate_token (db : DB) (dt : String) (t : String) :
    Bool × Option String :=
  if t == "" then (false, Option.none)
  else
    match dbGetTokenName db dt (strTrim t) with
    | some name => (name != "", some name)
    | Option.none => (false, Option.none)

/-- `BaseFormProcessor.validate_token_id` for a provided (truthy) token:
`some err` is a rejection.  The duplicate check runs only when the target
DocType is registered. -/
def validate_token_id (db : DB) (dt : String) (t : String) : Option String :=
  match validate_token_format t with
  | some ferr => some ferr
  | Option.none =>
      if db.doctypes.contains dt then
        if (check_duplicate_token db dt t).1 then
          some "This token has already been used for registration"
        else Option.none
      else Option.none

/-- The result dict of `BaseFormProcessor.process_form`: either a success
payload (`message`, `data.record_id`, `data.doctype`, `data.status`,
`data.token_id`, and the placeholder branch's `data.note`) or a failure
(`message`, `errors`). -/
inductive FormResult where
  | ok (message : String) (record_id : String) (res_doctype : String)
      (status : Value) (token_id : Option String) (note : Option String)
  | err (message : String) (errors : VErrors)

/-- Behavior of the persistence/attachment collaborators during one
submission: `some msg` means the call raises an exception with
`str(e) = msg`. -/
structure Collab where
  insertExc : Option String
  attachExc : Option String

/-- `BaseFormProcessor.process_form`, parametrized by the processor's
`validate_form_data` (returning the post-state of `form_data`) and
`map_form_fields`.  Collaborator exceptions land in the outermost
`except` branch, which returns the generic message together with
`errors = {"general": [str(e)]}`.  An exception raised inside
`validate_form_data` is caught there too; its `str(e)` is modelled by a fixed
placeholder text. -/
def processForm
    (validate : PyDict → Option (PyDict × Bool × VErrors))
    (mapFields : PyDict → PyDict × List (String × List PyDict))
    (form_type doctype : String) (collab : Collab) (now : String)
    (db : DB) (form_data : PyDict) (token_id : Option String) :
    FormResult × DB :=
  let tokErr : Option String :=
    match token_id with
    | some t => if t != "" then validate_token_id db doctype t else Option.none
    | Option.none => Option.none
  match tokErr with
  | some terr => (.err terr { VErrors.empty with token_id := [terr] }, db)
  | Option.none =>
      match validate form_data with
      | Option.none =>
          (.err "An error occurred while processing the form"
            { VErrors.empty with general := ["<validation exception>"] }, db)
      | some vres =>
          if !vres.2.1 then (.err "Form validation failed" vres.2.2, db)
          else
            let mc := mapFields vres.1
            let mapped := match token_id with
              | some t => if t != "" then pySet mc.1 "token_id" (.str (strTrim t)) else mc.1
              | Option.none => mc.1
            if !db.doctypes.contains doctype then
              (.ok ("Form submitted successfully (DocType " ++ doctype ++
                  " not found - using placeholder)")
                ("placeholder_" ++ form_type ++ "_" ++ now) doctype (.str "Open")
                token_id (some ("DocType \x27" ++ doctype ++ "\x27 does not exist yet")),
               db)
            else
              match collab.insertExc with
              | some emsg =>
                  (.err "An error occurred while processing the form"
                    { VErrors.empty with general := [emsg] }, db)
              | Option.none =>
                  let name := "rec-" ++ toString db.records.length
                  let db2 : DB :=
                    { db with records := db.records ++ [⟨doctype, name, mapped, mc.2⟩] }
                  match collab.attachExc with
                  | some emsg =>
                      (.err "An error occurred while processing the form"
                        { VErrors.empty with general := [emsg] }, db2)
                  | Option.none =>
                      (.ok "Form submitted successfully" name doctype
                        ((pyGet mapped "status").getD (.str "Open")) token_id
                        Option.none, db2)

/-- `TrainingProgramProcessor.validate_form_data` in the state-passing shape
`process_form` consumes (this validator never mutates `form_data`). -/
def training_program_validate_st (fd : PyDict) : Option (PyDict × Bool × VErrors) :=
  (training_program_validate fd).map (fun r => (fd, r.1, r.2))

/-- `TrainingProgramProcessor.map_form_fields`: direct dict construction with
empty values dropped (`v is not None and v != ""`). -/
def training_program_map (fd : PyDict) : PyDict × List (String × List PyDict) :=
  let entries : List (String × Value) :=
    [("full_name", (pyGet fd "fullName").getD (.str "")),
     ("phone", (pyGet fd "phone").getD (.str "")),
     ("city", (pyGet fd "city").getD (.str "")),
     ("age", (pyGet fd "age").getD Value.none),
     ("reason", (pyGet fd "reason").getD (.str "")),
     ("status", .str "Open")]
  (entries.filter (fun kv =>
    (match kv.2 with | .none => false | _ => true) &&
    (match kv.2 with | .str s => s != "" | _ => true)), [])

/-! ## Concrete instances used by the claims -/

/-- The C1 submission: description `"A"`, products `"B"`, plus a project name
so that the required-field gate keeps the row. -/
def c1fd : PyDict :=
  [("projectName", .str "P"), ("projectDescription", .str "A"), ("products", .str "B")]

/-- The project table config with the `project_detials` processor removed:
this is the configuration shape under which the direct fan-in accumulation
path (rather than `process_project_description`) produces the narrative
field. -/
def projectTableConfigDirect : TableConfig :=
  { projectTableConfig with
    field_processors := [("number_of_workers", "process_workers_count"),
      ("amount_capital", "process_currency_amount")] }

/-- A minimal engine configuration whose defaults collide with a mapped
field. -/
def c2cfg : TableConfig :=
  { child_doctype := "T"
    required_fields := []
    field_mappings := [("x", some "f")]
    field_processors := []
    defaults := [("f", .str "D")]
    array_source := Option.none
    condition := Option.none }

def c2fd : PyDict := [("x", .str "V")]

/-- A submission carrying only an Arabic `projectStatus` label. -/
def c3fd : PyDict := [("projectStatus", .str "قائم")]

/-- A store in which the training-registration DocType exists and no records
have been created yet. -/
def demoDB : DB := ⟨["Training Registration"], []⟩

/-- A fully valid training-program submission. -/
def demoTrainingFd : PyDict :=
  [("fullName", .str "Ali Ahmed"), ("phone", .str "777123456"),
   ("city", .str "Aden"), ("age", .str "25")]

/-! ## "All provided fields valid" predicates (hypotheses of claim C5) -/

/-- Every required field is either absent or passes the validator's own
required-field test. -/
def presentOkReq (failF : String → Option Value → Bool) (fd : PyDict)
    (reqs : List (String × String)) : Bool :=
  reqs.all (fun p => (pyGet fd p.1).isNone || !failF p.1 (pyGet fd p.1))

def intRangeProvOk (fd : PyDict) (key : String) (lo hi : Int) : Bool :=
  match pyGet fd key with
  | Option.none => true
  | some v =>
      !pyTruthy v ||
      (match pyInt v with
       | some n => decide (lo ≤ n ∧ n ≤ hi)
       | Option.none => false)

def phoneProvOk9 (fd : PyDict) (key : String) : Bool :=
  match pyGet fd key with
  | Option.none => true
  | some v =>
      !pyTruthy v ||
      (match v with
       | .str s => decide (9 ≤ (phoneDigitsPlus s).length)
       | _ => false)

def providedOkTP (fd : PyDict) : Bool :=
  presentOkReq (fun _ v => reqFailPy v) fd trainingRequired &&
  intRangeProvOk fd "age" 16 100 && phoneProvOk9 fd "phone"

def providedOkVP (fd : PyDict) : Bool :=
  presentOkReq (fun _ v => reqFailPy v) fd volunteerRequired &&
  intRangeProvOk fd "age" 16 100 && phoneProvOk9 fd "phone"

def providedOkTA (fd : PyDict) : Bool :=
  presentOkReq (fun _ v => reqFailPy v) fd trainingRequired &&
  intRangeProvOk fd "age" 16 100 && phoneProvOk9 fd "phone"

def tfProvOk (fd : PyDict) : Bool :=
  match pyGet fd "trainingFields" with
  | Option.none => true
  | some v =>
      match v with
      | .list xs => xs.all (fun f => validTrainingFields.any (fun t => valueEqStr f t))
      | .none => true
      | _ => false

def providedOkTS (fd : PyDict) : Bool :=
  presentOkReq tsFailF fd trainingServiceRequired &&
  intRangeProvOk fd "age" 16 100 && phoneProvOk9 fd "phone" && tfProvOk fd

def priceProvOk (fd : PyDict) : Bool :=
  match pyGet fd "price" with
  | Option.none => true
  | some v =>
      !pyTruthy v ||
      (match v with
       | .str s =>
           strTrim s == "" ||
           (match pyFloatOfString (filterDigitsDots s) with
            | some q => decide (0 ≤ q)
            | Option.none => false)
       | _ => false)

def providedOkPP (fd : PyDict) : Bool :=
  presentOkReq (fun _ v => reqFailPy v) fd promoteRequired && priceProvOk fd

def enumProvOk (fd : PyDict) (key : String) (valid : List String) : Bool :=
  match pyGet fd key with
  | Option.none => true
  | some v => !pyTruthy v || valid.any (fun t => valueEqStr v t)

def specsCapitalProvOk (fd : PyDict) : Bool :=
  match pyGet fd "capital" with
  | Option.none => true
  | some v =>
      !pyTruthy v ||
      (match v with
       | .str s =>
           match pyFloatOfString (filterDigitsDots s) with
           | some q => decide (0 ≤ q)
           | Option.none => false
       | _ => false)

def providedOkSM (fd : PyDict) : Bool :=
  presentOkReq (fun _ v => reqFailPy v) fd specsRequired &&
  enumProvOk fd "projectType" ["صغير", "متناهي الصغر", "مشروع صغير قيد التأسيس"] &&
  enumProvOk fd "projectStatus" ["نشط", "غير نشط"] &&
  enumProvOk fd "gender" ["ذكر", "أنثى"] &&
  enumProvOk fd "educationLevel" ["مدرسة", "جامعة", "معهد"] &&
  phoneProvOk9 fd "phone" && specsCapitalProvOk fd

def contractEmailProvOk (fd : PyDict) : Bool :=
  match pyGet fd "email" with
  | Option.none => true
  | some v =>
      !pyTruthy v ||
      (match v with
       | .str s => emailMatchSimple s
       | _ => false)

def providedOkCO (fd : PyDict) : Bool :=
  presentOkReq (fun _ v => reqFailPy v) fd contractRequired &&
  contractEmailProvOk fd && phoneProvOk9 fd "phone" &&
  intRangeProvOk fd "experienceYears" 0 50

def contactEmailProvOk (fd : PyDict) : Bool :=
  match pyGet fd "email" with
  | Option.none => true
  | some v =>
      !pyTruthy v ||
      (match v with
       | .str s => strTrim s == "" || emailMatchSimple s
       | _ => false)

def providedOkCF (fd : PyDict) : Bool :=
  presentOkReq (fun _ v => reqFailPy v) fd contactRequired &&
  contactEmailProvOk fd && phoneProvOk9 fd "phone"

def smallEmailProvOk (fd : PyDict) : Bool :=
  match pyGet fd "email" with
  | Option.none => true
  | some v =>
      !pyTruthy v ||
      (match validate_email v with
       | some r => r.1
       | Option.none => false)

def smallCapitalProvOk (fd : PyDict) : Bool :=
  match pyGet fd "capital" with
  | Option.none => true
  | some v => !pyTruthy v || (validate_currency v).1

def smallWorkersProvOk (fd : PyDict) : Bool :=
  match pyGet fd "workersCount" with
  | Option.none => true
  | some v =>
      !pyTruthy v ||
      (match pyInt v with
       | some n => decide (0 ≤ n)
       | Option.none => false)

def smallPhoneProvOk (fd : PyDict) : Bool :=
  match pyGet fd "primaryPhone" with
  | Option.none => true
  | some v => !pyTruthy v || (validate_phone v 7).1

def smallStatusProvOk (fd : PyDict) : Bool :=
  match pyGet fd "projectStatus" with
  | Option.none => true
  | some v =>
      !pyTruthy v ||
      (match v with
       | .list _ => false
       | .dict _ => false
       | _ =>
           statusMapping.any (fun p => valueEqStr v p.1) ||
           ["Open", "Approved", "Rejected", "Cancelled"].any (fun t => valueEqStr v t))

def providedOkSmall (fd : PyDict) : Bool :=
  presentOkReq (fun _ v => vrfFail v) fd smallRequired &&
  smallEmailProvOk fd && intRangeProvOk fd "age" 18 100 &&
  smallCapitalProvOk fd && smallWorkersProvOk fd && smallPhoneProvOk fd &&
  smallStatusProvOk fd

/-- Per-form-type "all provided fields valid" predicate. -/
def providedOk (ft : String) (fd : PyDict) : Bool :=
  if ft == "small-project-register" then providedOkSmall fd
  else if ft == "training-program" then providedOkTP fd
  else if ft == "volunteer-program" then providedOkVP fd
  else if ft == "training-service" then providedOkTS fd
  else if ft == "training-ad" then providedOkTA fd
  else if ft == "promote-project" then providedOkPP fd
  else if ft == "specs-memo-request" then providedOkSM fd
  else if ft == "contract-opportunity" then providedOkCO fd
  else if ft == "contact-form" then providedOkCF fd
  else true

/-- A fully valid small-project submission whose `projectStatus` carries the
Arabic label mapped to `Approved`. -/
def c3wfd : PyDict :=
  [("ownerFullName", .str "Ali Ahmed"), ("governorate", .str "Aden"),
   ("district", .str "D"), ("neighborhood", .str "N"), ("street", .str "S"),
   ("age", .str "30"), ("primaryPhone", .str "777123456"),
   ("email", .str "ali@example.com"), ("projectName", .str "P"),
   ("projectStatus", .str "قائم"), ("capital", .str "1000"),
   ("workersCount", .str "3"), ("startDate", .str "2024-01-01"),
   ("products", .str "B"), ("projectDescription", .str "A")]

/-- `c3wfd` after the in-place `projectStatus` rewrite. -/
def c3wfdAfter : PyDict :=
  [("ownerFullName", .str "Ali Ahmed"), ("governorate", .str "Aden"),
   ("district", .str "D"), ("neighborhood", .str "N"), ("street", .str "S"),
   ("age", .str "30"), ("primaryPhone", .str "777123456"),
   ("email", .str "ali@example.com"), ("projectName", .str "P"),
   ("projectStatus", .str "Approved"), ("capital", .str "1000"),
   ("workersCount", .str "3"), ("startDate", .str "2024-01-01"),
   ("products", .str "B"), ("projectDescription", .str "A")]

/-! ## General lemmas about the dict model -/

theorem lookupA_upsertA_self {α : Type} (d : List (String × α)) (k : String) (v : α) :
    lookupA (upsertA d k v) k = some v := by
  induction d with
  | nil => simp [upsertA, lookupA]
  | cons p t ih =>
      by_cases hk : p.1 = k
      · simp [upsertA, lookupA, hk]
      · simp [upsertA, lookupA, hk, ih]

theorem lookupA_upsertA_ne {α : Type} (d : List (String × α)) (k k2 : String) (v : α)
    (h : k2 ≠ k) : lookupA (upsertA d k v) k2 = lookupA d k2 := by
  induction d with
  | nil => simp [upsertA, lookupA, Ne.symm h]
  | cons p t ih =>
      by_cases hk : p.1 = k
      · simp [upsertA, lookupA, hk, Ne.symm h]
      · simp [upsertA, lookupA, hk, ih]

theorem upsertA_not_mem {α : Type} (d : List (String × α)) (k : String) (v : α)
    (h : k ∉ d.map Prod.fst) : upsertA d k v = d ++ [(k, v)] := by
  induction d with
  | nil => simp [upsertA]
  | cons p t ih =>
      simp only [List.map_cons, List.mem_cons] at h
      push_neg at h
      simp [upsertA, Ne.symm h.1, ih h.2]

theorem lookupA_updateA_not_mem {α : Type} (d e : List (String × α)) (k : String)
    (h : k ∉ e.map Prod.fst) : lookupA (updateA d e) k = lookupA d k := by
  induction e generalizing d with
  | nil => simp [updateA]
  | cons p t ih =>
      simp only [List.map_cons, List.mem_cons] at h
      push_neg at h
      have hstep : updateA d (p :: t) = updateA (upsertA d p.1 p.2) t := rfl
      rw [hstep, ih _ h.2, lookupA_upsertA_ne _ _ _ _ h.1]

theorem lookupA_updateA {α : Type} (d e : List (String × α)) (k : String)
    (hnd : (e.map Prod.fst).Nodup) :
    lookupA (updateA d e) k =
      match lookupA e k with
      | some v => some v
      | Option.none => lookupA d k := by
  induction e generalizing d with
  | nil => simp [updateA, lookupA]
  | cons p t ih =>
      simp only [List.map_cons, List.nodup_cons] at hnd
      have hstep : updateA d (p :: t) = updateA (upsertA d p.1 p.2) t := rfl
      by_cases hk : p.1 = k
      · subst hk
        rw [hstep, lookupA_updateA_not_mem _ _ _ hnd.1, lookupA_upsertA_self]
        simp [lookupA]
      · rw [hstep, ih _ hnd.2]
        cases h2 : lookupA t k with
        | none => simp [lookupA, hk, h2, lookupA_upsertA_ne _ _ _ _ (fun hh => hk hh.symm)]
        | some v => simp [lookupA, hk, h2]

theorem find?_append_of_none {α : Type} (p : α → Bool) (l1 l2 : List α)
    (h : l1.find? p = Option.none) : (l1 ++ l2).find? p = l2.find? p := by
  induction l1 with
  | nil => simp
  | cons a t ih =>
      cases hpa : p a with
      | true => simp [List.find?, hpa] at h
      | false =>
          simp only [List.find?, hpa] at h
          simp only [List.cons_append, List.find?, hpa]
          exact ih h

theorem string_append_ne_empty_left (s t : String) (h : s ≠ "") : s ++ t ≠ "" := by
  intro he
  have hl := congrArg String.length he
  rw [String.length_append] at hl
  apply h
  have hs : s.length = 0 := by
    have : ("" : String).length = 0 := rfl
    omega
  cases s with
  | mk data =>
      cases data with
      | nil => rfl
      | cons c cs => simp [String.length] at hs

theorem filter_map_comm {α β : Type} (l : List α) (f : α → β) (p : β → Bool) :
    (l.filter (fun a => p (f a))).map f = (l.map f).filter p := by
  induction l with
  | nil => rfl
  | cons a t ih =>
      by_cases hpa : p (f a) = true
      · simp [List.filter, hpa, ih]
      · simp only [Bool.not_eq_true] at hpa
        simp [List.filter, hpa, ih]

theorem filter_ne_nil_of_any {α : Type} (l : List α) (p : α → Bool)
    (h : l.any p = true) : l.filter p ≠ [] := by
  rw [List.any_eq_true] at h
  obtain ⟨a, ha, hpa⟩ := h
  intro hc
  rw [List.filter_eq_nil_iff] at hc
  exact hc a ha hpa

theorem numKeys_ne_zero_of_fe (e : VErrors) (h : e.field_errors ≠ []) :
    (e.numKeys == 0) = false := by
  have h1 : e.field_errors.isEmpty = false := by
    cases hfe : e.field_errors with
    | nil => exact absurd hfe h
    | cons a t => rfl
  rw [beq_eq_false_iff_ne]
  simp only [VErrors.numKeys, h1, Bool.false_eq_true, if_false]
  omega

/-! ## Helper lemmas for specific claims -/

theorem process_currency_amount_eq (v : Value) (q : ℚ)
    (hv : pyTruthy v = true)
    (hq : pyFloatOfString (strTrim (strRemoveChar (strRemoveChar (pyStr v) ',') ' ')) = some q)
    (hq0 : 0 ≤ q) :
    process_currency_amount v = some (.num q) := by
  simp only [process_currency_amount, hv, Bool.not_true, Bool.false_eq_true, if_false, hq]
  rw [if_pos (by exact hq0)]

/-! ## Claim theorems -/

/-- C1.  For the single-row project table of the small-project-register
mapping, with `projectDescription="A"` and `products="B"`: the configured
computed-field path (`process_project_description`) produces the narrative
field `"A\n\nProducts: B"`, while the direct fan-in accumulation path (the same
table configuration without the `project_detials` processor) produces
`"A\n\nB"`; the two results differ. -/
theorem c1_fanin_merge_paths :
    process_single_table 2026 projectTableConfig c1fd =
      some [[("project_detials", Value.str "A\n\nProducts: B"),
             ("project_name", Value.str "P")]] ∧
    process_single_table 2026 projectTableConfigDirect c1fd =
      some [[("project_name", Value.str "P"),
             ("project_detials", Value.str "A\n\nB")]] ∧
    ("A\n\nProducts: B" : String) ≠ "A\n\nB" :=
  ⟨by rfl, by rfl, by decide⟩

/-- C2 counterexample.  In the single-row engine, the direct mapping writes
`f := "V"` into the candidate row, but merging the static defaults
(`table_row.update(defaults)`) replaces it with the default `"D"`: defaults do
overwrite values already present. -/
theorem c2_defaults_overwrite_counterexample :
    single_row_core 2026 c2cfg c2fd = [("f", Value.str "V")] ∧
    process_single_table 2026 c2cfg c2fd = some [[("f", Value.str "D")]] ∧
    Value.str "D" ≠ Value.str "V" :=
  ⟨by rfl, by rfl, by simp only [ne_eq, Value.str.injEq]; decide⟩

/-- C2 amended.  The defaults merge has `dict.update` semantics: in both the
single-row path and the array-row path, every key of the (duplicate-free)
defaults mapping holds the default value in the merged row — overwriting any
value a field processor or direct mapping put there — and keys outside the
defaults keep their computed values. -/
theorem c2_defaults_merge_amended (cfg : TableConfig) (cy : Int) (fd rd : PyDict)
    (k : String) (hnd : (cfg.defaults.map Prod.fst).Nodup) :
    (∀ v, pyGet cfg.defaults k = some v →
      pyGet (merged_single_row cy cfg fd) k = some v ∧
      pyGet (dictUpdate (array_row_core cy cfg rd) cfg.defaults) k = some v) ∧
    (pyGet cfg.defaults k = Option.none →
      pyGet (merged_single_row cy cfg fd) k = pyGet (single_row_core cy cfg fd) k ∧
      pyGet (dictUpdate (array_row_core cy cfg rd) cfg.defaults) k =
        pyGet (array_row_core cy cfg rd) k) := by
  have h1 := lookupA_updateA (single_row_core cy cfg fd) cfg.defaults k hnd
  have h2 := lookupA_updateA (array_row_core cy cfg rd) cfg.defaults k hnd
  constructor
  · intro v hv
    simp only [pyGet, merged_single_row, dictUpdate] at hv ⊢
    rw [hv] at h1 h2
    exact ⟨h1, h2⟩
  · intro hv
    simp only [pyGet, merged_single_row, dictUpdate] at hv ⊢
    rw [hv] at h1 h2
    exact ⟨h1, h2⟩

/-- Witness for the amended C2 at the concrete colliding configuration. -/
theorem c2_defaults_merge_amended_witness :
    pyGet (merged_single_row 2026 c2cfg c2fd) "f" = some (Value.str "D") :=
  ((c2_defaults_merge_amended c2cfg 2026 c2fd [] "f" (by decide)).1
    (Value.str "D") (by rfl)).1

/-- C7.  parse-currency strips separators and whitespace and parses as a
(rational-modelled) float: `"1,234.50" ↦ 1234.50`, `"-5" ↦ None`,
`"abc" ↦ None`; and for every input value, a parse failure or a negative
parsed result yields `None`. -/
theorem c7_parse_currency :
    process_currency_amount (.str "1,234.50") = some (.num (2469 / 2)) ∧
    process_currency_amount (.str "-5") = Option.none ∧
    process_currency_amount (.str "abc") = Option.none ∧
    (∀ v : Value,
      (pyFloatOfString (strTrim (strRemoveChar (strRemoveChar (pyStr v) ',') ' ')) =
          Option.none → process_currency_amount v = Option.none) ∧
      (∀ q : ℚ,
        pyFloatOfString (strTrim (strRemoveChar (strRemoveChar (pyStr v) ',') ' ')) =
          some q → q < 0 → process_currency_amount v = Option.none)) := by
  refine ⟨?_, by rfl, by rfl, ?_⟩
  · apply process_currency_amount_eq
    · rfl
    · have h0 : pyFloatOfString (strTrim (strRemoveChar (strRemoveChar
          (pyStr (Value.str "1,234.50")) ',') ' ')) =
          some ((natOfDigits ['1', '2', '3', '4', '5', '0'] : ℚ) / ((10 : ℚ) ^ (2 : Nat))) := by
        rfl
      rw [h0]
      have h1 : natOfDigits ['1', '2', '3', '4', '5', '0'] = 123450 := by rfl
      rw [h1]
      norm_num
    · norm_num
  · intro v
    constructor
    · intro hp
      by_cases hv : pyTruthy v = true
      · simp only [process_currency_amount, hv, Bool.not_true, Bool.false_eq_true,
          if_false, hp]
      · simp only [Bool.not_eq_true] at hv
        simp only [process_currency_amount, hv, Bool.not_false, if_true]
    · intro q hp hq
      by_cases hv : pyTruthy v = true
      · simp only [process_currency_amount, hv, Bool.not_true, Bool.false_eq_true,
          if_false, hp]
        rw [if_neg (by exact not_le.mpr hq)]
      · simp only [Bool.not_eq_true] at hv
        simp only [process_currency_amount, hv, Bool.not_false, if_true]

/-- Witness for C7: the negative-result hypothesis discharged at `"-5"`. -/
theorem c7_parse_currency_witness :
    process_currency_amount (.str "-5") = Option.none :=
  (c7_parse_currency.2.2.2 (.str "-5")).2 (-(5 : ℚ)) (by rfl) (by norm_num)

theorem str_ne_empty_of_trim (s : String) (h : strTrim s ≠ "") : s ≠ "" := by
  intro he
  subst he
  exact h rfl

/-- C10.  The computed-path merge is guarded by a substring check: for
non-blank description `d` and products `p`, `process_project_description`
returns the trimmed `d` unchanged when the trimmed `p` already occurs inside
it, and otherwise appends `"\n\nProducts: "` followed by the trimmed `p`. -/
theorem c10_products_substring_guard (fd : PyDict) (d p : String)
    (hp : pyGet fd "products" = some (.str p))
    (hd : strTrim d ≠ "") (hpt : strTrim p ≠ "") :
    process_project_description (.str d) fd =
      some (.str (if strContains (strTrim d) (strTrim p) then strTrim d
        else strTrim d ++ "\n\nProducts: " ++ strTrim p)) := by
  have hd0 : d ≠ "" := str_ne_empty_of_trim d hd
  have hp0 : p ≠ "" := str_ne_empty_of_trim p hpt
  by_cases hc : strContains (strTrim d) (strTrim p) = true
  · simp [process_project_description, hp, pyStr, pyTruthy, hd0, hp0, hpt, hc, hd,
      bne_iff_ne]
  · simp only [Bool.not_eq_true] at hc
    have hne : (strTrim d ++ "\n\nProducts: " ++ strTrim p) ≠ "" :=
      string_append_ne_empty_left _ _
        (string_append_ne_empty_left (strTrim d) "\n\nProducts: " hd)
    simp [process_project_description, hp, pyStr, pyTruthy, hd0, hp0, hpt, hc,
      bne_iff_ne, hne]

/-- Witness for C10 at `d = "A"`, `p = "B"` (no-substring branch). -/
theorem c10_products_substring_guard_witness :
    process_project_description (.str "A") [("products", Value.str "B")] =
      some (.str "A\n\nProducts: B") := by
  have h := c10_products_substring_guard [("products", Value.str "B")] "A" "B"
    (by rfl) (by decide) (by decide)
  rw [h]
  rfl

theorem statusFindBranch_shape (fd : PyDict) (e : VErrors) (pr : PyDict × VErrors)
    (v : Value)
    (h : (match statusMapping.find? (fun p => valueEqStr v p.1) with
      | some p => some (pySet fd "projectStatus" (Value.str p.2), e)
      | Option.none =>
          if (["Open", "Approved", "Rejected", "Cancelled"].all
              (fun t => !valueEqStr v t)) = true then
            some (fd, addFE e "projectStatus"
              ["Invalid project status. Must be one of: قيد الفكرة, قيد التنفيذ, قائم"])
          else some (fd, e)) = some pr) :
    pr.1 = fd ∨ ∃ s, pr.1 = pySet fd "projectStatus" (Value.str s) := by
  cases hf : statusMapping.find? (fun p => valueEqStr v p.1) with
  | some p =>
      simp only [hf, Option.some.injEq] at h
      right
      exact ⟨p.2, by rw [← h]⟩
  | none =>
      simp only [hf] at h
      by_cases ha : (["Open", "Approved", "Rejected", "Cancelled"].all
          (fun t => !valueEqStr v t)) = true
      · simp only [ha, if_true, Option.some.injEq] at h
        left; rw [← h]
      · simp only [Bool.not_eq_true] at ha
        simp only [ha, Bool.false_eq_true, if_false, Option.some.injEq] at h
        left; rw [← h]

theorem smallStatusStep_shape (fd : PyDict) (e : VErrors) (pr : PyDict × VErrors)
    (h : smallStatusStep fd e = some pr) :
    pr.1 = fd ∨ ∃ s, pr.1 = pySet fd "projectStatus" (Value.str s) := by
  unfold smallStatusStep at h
  cases hg : pyGet fd "projectStatus" with
  | none =>
      simp only [hg, Option.some.injEq] at h
      left; rw [← h]
  | some v =>
      simp only [hg] at h
      by_cases hv : pyTruthy v = true
      · simp only [hv, if_true] at h
        cases v with
        | list xs => simp at h
        | dict xs => simp at h
        | none => exact statusFindBranch_shape fd e pr Value.none h
        | bool b => exact statusFindBranch_shape fd e pr (Value.bool b) h
        | int n => exact statusFindBranch_shape fd e pr (Value.int n) h
        | num q => exact statusFindBranch_shape fd e pr (Value.num q) h
        | str s => exact statusFindBranch_shape fd e pr (Value.str s) h
      · simp only [Bool.not_eq_true] at hv
        simp only [hv, Bool.false_eq_true, if_false, Option.some.injEq] at h
        left; rw [← h]

theorem small_project_validate_dict (cy : Int) (fd : PyDict)
    (r : PyDict × Bool × VErrors) (h : small_project_validate cy fd = some r) :
    r.1 = fd ∨ ∃ s, r.1 = pySet fd "projectStatus" (Value.str s) := by
  unfold small_project_validate at h
  cases he : smallEmailCheck fd
      (checkRequired (fun _ v => vrfFail v) stdMsgF fd smallRequired VErrors.empty) with
  | none => simp only [he] at h; exact Option.noConfusion h
  | some e1 =>
      simp only [he] at h
      cases hs : smallStatusStep fd
          (smallPhoneCheck fd (smallWorkersCheck fd (smallCapitalCheck fd
            (smallAgeCheck fd e1)))) with
      | none => simp only [hs] at h; exact Option.noConfusion h
      | some pr =>
          simp only [hs, Option.some.injEq] at h
          have h1 : r.1 = pr.1 := by rw [← h]
          rw [h1]
          exact smallStatusStep_shape fd _ pr hs

/-- C3 counterexample.  `SmallProjectProcessor.validate_form_data` is not a
pure function of the submission: on a submission whose `projectStatus` is the
Arabic label `"قائم"`, it rewrites the input dict in place to `"Approved"`, so
the post-state of the submission differs from the input. -/
theorem c3_validate_mutates_counterexample :
    (small_project_validate 2026 c3fd).map (fun r => r.1) =
      some [("projectStatus", Value.str "Approved")] ∧
    ([("projectStatus", Value.str "Approved")] : PyDict) ≠ c3fd := by
  refine ⟨by rfl, ?_⟩
  intro h
  simp only [c3fd, List.cons.injEq, Prod.mk.injEq, Value.str.injEq, and_true] at h
  exact absurd h.2 (by decide)

/-- C3 amended.  The mapping engine (`FieldMapper.map_form_data`) leaves the
submission unchanged and is a pure function of the submission and the clock
year; `validate_form_data` is deterministic but may rewrite the submission in
place at the single key `projectStatus` (Arabic label → internal code);
no other key is ever modified. -/
theorem c3_purity_amended :
    (∀ cy fd, (fm_map_form_data cy fd).1 = fd) ∧
    (∀ (cy : Int) (fd : PyDict) (r : PyDict × Bool × VErrors),
      small_project_validate cy fd = some r →
      r.1 = fd ∨ ∃ s, r.1 = pySet fd "projectStatus" (Value.str s)) :=
  ⟨fun _ _ => rfl, fun cy fd r h => small_project_validate_dict cy fd r h⟩

/-- Witness for the amended C3 at a fully valid submission carrying an Arabic
status label. -/
theorem c3_purity_amended_witness :
    c3wfdAfter = c3wfd ∨ ∃ s, c3wfdAfter = pySet c3wfd "projectStatus" (Value.str s) :=
  c3_purity_amended.2 2026 c3wfd (c3wfdAfter, true, ⟨[], [], [], []⟩) (by rfl)

/-- C9.  When the persistence store reports that the target record type does
not exist, `process_form` returns a success result whose `record_id` is the
synthetic placeholder string, and the store is left unchanged: no record is
persisted, so success does not imply persistence. -/
theorem c9_placeholder_success
    (validate : PyDict → Option (PyDict × Bool × VErrors))
    (mapFields : PyDict → PyDict × List (String × List PyDict))
    (ft dt : String) (collab : Collab) (now : String) (db : DB)
    (fd fd2 : PyDict) (ve : VErrors)
    (hval : validate fd = some (fd2, true, ve))
    (hdt : db.doctypes.contains dt = false) :
    processForm validate mapFields ft dt collab now db fd Option.none =
      (FormResult.ok ("Form submitted successfully (DocType " ++ dt ++
          " not found - using placeholder)")
        ("placeholder_" ++ ft ++ "_" ++ now) dt (.str "Open") Option.none
        (some ("DocType \x27" ++ dt ++ "\x27 does not exist yet")), db) := by
  simp only [processForm, hval, Bool.not_true, Bool.false_eq_true, if_false, hdt,
    Bool.not_false, if_true]

/-- Witness for C9: a valid training-program submission against an empty
store. -/
theorem c9_placeholder_success_witness :
    processForm training_program_validate_st training_program_map
      "training-program" "Training Registration" ⟨Option.none, Option.none⟩
      "2025-01-01" ⟨[], []⟩ demoTrainingFd Option.none =
      (FormResult.ok ("Form submitted successfully (DocType " ++
          "Training Registration" ++ " not found - using placeholder)")
        ("placeholder_" ++ "training-program" ++ "_" ++ "2025-01-01")
        "Training Registration" (.str "Open") Option.none
        (some ("DocType \x27" ++ "Training Registration" ++ "\x27 does not exist yet")),
       ⟨[], []⟩) :=
  c9_placeholder_success training_program_validate_st training_program_map
    "training-program" "Training Registration" ⟨Option.none, Option.none⟩
    "2025-01-01" ⟨[], []⟩ demoTrainingFd demoTrainingFd ⟨[], [], [], []⟩
    (by rfl) (by rfl)

/-- C8 counterexample.  When record creation raises, `process_form` returns
the generic message, but the `errors.general` list returned to the caller
carries `str(e)` — the raw collaborator exception detail — verbatim. -/
theorem c8_raw_detail_counterexample :
    (processForm training_program_validate_st training_program_map
      "training-program" "Training Registration"
      ⟨some "DatabaseError: disk I/O failure at block 42", Option.none⟩
      "2025-01-01" demoDB demoTrainingFd Option.none).1 =
    FormResult.err "An error occurred while processing the form"
      ⟨[], [], ["DatabaseError: disk I/O failure at block 42"], []⟩ := by rfl

/-- C8 amended.  A collaborator exception during record creation or file
attachment is caught and converted into a failure whose top-level message is
the fixed generic text (no stack trace and no exception type), but whose
`errors.general` entry is exactly `str(e)`, the raw exception detail. -/
theorem c8_generic_message_amended
    (validate : PyDict → Option (PyDict × Bool × VErrors))
    (mapFields : PyDict → PyDict × List (String × List PyDict))
    (ft dt now : String) (db : DB) (fd fd2 : PyDict) (ve : VErrors)
    (emsg : String) (aexc : Option String)
    (hval : validate fd = some (fd2, true, ve))
    (hdt : db.doctypes.contains dt = true) :
    ((processForm validate mapFields ft dt ⟨some emsg, aexc⟩ now db fd
        Option.none).1 =
      FormResult.err "An error occurred while processing the form"
        ⟨[], [], [emsg], []⟩) ∧
    ((processForm validate mapFields ft dt ⟨Option.none, some emsg⟩ now db fd
        Option.none).1 =
      FormResult.err "An error occurred while processing the form"
        ⟨[], [], [emsg], []⟩) := by
  constructor
  · simp only [processForm, hval, Bool.not_true, Bool.false_eq_true, if_false, hdt,
      VErrors.empty]
  · simp only [processForm, hval, Bool.not_true, Bool.false_eq_true, if_false, hdt,
      VErrors.empty]

/-- Witness for the amended C8 at a concrete failing insert. -/
theorem c8_generic_message_amended_witness :
    (processForm training_program_validate_st training_program_map
      "training-program" "Training Registration"
      ⟨some "IntegrityError: duplicate key", Option.none⟩
      "2025-01-01" demoDB demoTrainingFd Option.none).1 =
    FormResult.err "An error occurred while processing the form"
      ⟨[], [], ["IntegrityError: duplicate key"], []⟩ :=
  (c8_generic_message_amended training_program_validate_st training_program_map
    "training-program" "Training Registration" "2025-01-01" demoDB demoTrainingFd
    demoTrainingFd ⟨[], [], [], []⟩ "IntegrityError: duplicate key" Option.none
    (by rfl) (by rfl)).1

theorem row_ne_nil_of_any_truthy (row : PyDict) (fs : List String)
    (h : fs.any (fun f => pyTruthy (rowGet row f)) = true) : row.isEmpty = false := by
  rw [List.any_eq_true] at h
  obtain ⟨f, _, hp⟩ := h
  cases row with
  | nil => simp [rowGet, pyGet, lookupA, pyTruthy] at hp
  | cons a t => rfl

/-- C4.  For a single-row table whose configuration declares required fields,
the table is present in the output iff at least one required field is truthy
in the built (defaults-merged) row; when none is truthy the table is omitted
(`None`), not returned as an empty list. -/
theorem c4_required_any_gate (cfg : TableConfig) (cy : Int) (fd : PyDict)
    (harr : cfg.array_source = Option.none) (hreq : cfg.required_fields ≠ []) :
    (process_single_table cy cfg fd = some [merged_single_row cy cfg fd] ↔
      cfg.required_fields.any
        (fun f => pyTruthy (rowGet (merged_single_row cy cfg fd) f)) = true) ∧
    (cfg.required_fields.any
        (fun f => pyTruthy (rowGet (merged_single_row cy cfg fd) f)) = false →
      process_single_table cy cfg fd = Option.none) := by
  have hne : cfg.required_fields.isEmpty = false := by
    cases hcf : cfg.required_fields with
    | nil => exact absurd hcf hreq
    | cons a t => rfl
  by_cases hany : cfg.required_fields.any
      (fun f => pyTruthy (rowGet (merged_single_row cy cfg fd) f)) = true
  · have hrow := row_ne_nil_of_any_truthy (merged_single_row cy cfg fd)
      cfg.required_fields hany
    constructor
    · simp only [process_single_table, harr, hne, Bool.not_false, if_true, hany,
        Bool.false_eq_true, if_false, hrow]
    · intro hany2
      rw [hany] at hany2
      exact absurd hany2 (by decide)
  · simp only [Bool.not_eq_true] at hany
    constructor
    · simp only [process_single_table, harr, hne, Bool.not_false, if_true, hany,
        Bool.false_eq_true, if_false]
      constructor
      · intro hc
        exact Option.noConfusion hc
      · intro hc
        exact absurd hc (by decide)
    · intro _
      simp only [process_single_table, harr, hne, Bool.not_false, if_true, hany,
        Bool.false_eq_true, if_false]

/-- Witness for C4: the project table with a truthy `project_name`. -/
theorem c4_required_any_gate_witness :
    process_single_table 2026 projectTableConfig c1fd =
      some [merged_single_row 2026 projectTableConfig c1fd] :=
  (c4_required_any_gate projectTableConfig 2026 c1fd (by rfl) (by decide)).1.mpr (by rfl)

theorem token_format_ne_empty (t : String) (h : validate_token_format t = Option.none) :
    (t != "") = true := by
  unfold validate_token_format at h
  by_cases ht : t = ""
  · subst ht; simp at h
  · simp [bne_iff_ne, ht]

theorem rec_name_ne_empty (s : String) : ("rec-" ++ s) ≠ "" :=
  string_append_ne_empty_left "rec-" s (by decide)

/-- C6.  For a fixed record type, with a format-valid, previously unused token:
the first submission is accepted and appends exactly one record carrying the
stripped token; any second submission with the same token — whatever its
form_data — is rejected with the duplicate-token error before validation or
mapping can run, and the store is returned unchanged, so at most one
submission per token per record type is ever accepted. -/
theorem c6_duplicate_token (db : DB) (dt t now now2 : String) (fd1 : PyDict)
    (ve : VErrors)
    (hfmt : validate_token_format t = Option.none)
    (hdt : db.doctypes.contains dt = true)
    (hpre : dbGetTokenName db dt (strTrim t) = Option.none)
    (hval : training_program_validate_st fd1 = some (fd1, true, ve)) :
    (processForm training_program_validate_st training_program_map "training-program"
        dt ⟨Option.none, Option.none⟩ now db fd1 (some t) =
      (FormResult.ok "Form submitted successfully"
        ("rec-" ++ toString db.records.length) dt
        ((pyGet (pySet (training_program_map fd1).1 "token_id"
          (.str (strTrim t))) "status").getD (.str "Open"))
        (some t) Option.none,
       { db with records := db.records ++
           [⟨dt, "rec-" ++ toString db.records.length,
             pySet (training_program_map fd1).1 "token_id" (.str (strTrim t)),
             (training_program_map fd1).2⟩] })) ∧
    (∀ fd2 : PyDict,
      processForm training_program_validate_st training_program_map "training-program"
        dt ⟨Option.none, Option.none⟩ now2
        { db with records := db.records ++
            [⟨dt, "rec-" ++ toString db.records.length,
              pySet (training_program_map fd1).1 "token_id" (.str (strTrim t)),
              (training_program_map fd1).2⟩] }
        fd2 (some t) =
      (FormResult.err "This token has already been used for registration"
        ⟨[], [], [], ["This token has already been used for registration"]⟩,
       { db with records := db.records ++
           [⟨dt, "rec-" ++ toString db.records.length,
             pySet (training_program_map fd1).1 "token_id" (.str (strTrim t)),
             (training_program_map fd1).2⟩] })) := by
  have ht : (t != "") = true := token_format_ne_empty t hfmt
  have hteq : (t == "") = false := by
    rw [bne_iff_ne] at ht
    rw [beq_eq_false_iff_ne]
    exact ht
  constructor
  · have hvt : validate_token_id db dt t = Option.none := by
      unfold validate_token_id
      rw [hfmt]
      simp only [hdt, if_true]
      unfold check_duplicate_token
      simp only [hteq, Bool.false_eq_true, if_false, hpre]
    simp only [processForm, ht, if_true, hvt, hval, Bool.not_true, Bool.false_eq_true,
      if_false, hdt, Bool.not_true]
  · intro fd2
    have hfind : dbGetTokenName
        { db with records := db.records ++
            [⟨dt, "rec-" ++ toString db.records.length,
              pySet (training_program_map fd1).1 "token_id" (.str (strTrim t)),
              (training_program_map fd1).2⟩] } dt (strTrim t) =
        some ("rec-" ++ toString db.records.length) := by
      unfold dbGetTokenName at hpre ⊢
      rw [Option.map_eq_none'] at hpre
      simp only []
      rw [find?_append_of_none _ _ _ hpre]
      simp only [List.find?, pyGet, pySet, lookupA_upsertA_self]
      simp
    have hdup : validate_token_id
        { db with records := db.records ++
            [⟨dt, "rec-" ++ toString db.records.length,
              pySet (training_program_map fd1).1 "token_id" (.str (strTrim t)),
              (training_program_map fd1).2⟩] } dt t =
        some "This token has already been used for registration" := by
      unfold validate_token_id
      rw [hfmt]
      simp only [hdt, if_true]
      unfold check_duplicate_token
      simp only [hteq, Bool.false_eq_true, if_false, hfind]
      simp [bne_iff_ne, rec_name_ne_empty]
    simp only [processForm, ht, if_true, hdup, VErrors.empty]

/-- Witness for C6: submitting `"tok12"` a second time against the store that
already holds the first accepted record is rejected as a duplicate and leaves
the store unchanged. -/
theorem c6_duplicate_token_witness :
    processForm training_program_validate_st training_program_map "training-program"
      "Training Registration" ⟨Option.none, Option.none⟩ "t2"
      { demoDB with records := demoDB.records ++
          [⟨"Training Registration", "rec-" ++ toString demoDB.records.length,
            pySet (training_program_map demoTrainingFd).1 "token_id"
              (.str (strTrim "tok12")),
            (training_program_map demoTrainingFd).2⟩] }
      [] (some "tok12") =
    (FormResult.err "This token has already been used for registration"
      ⟨[], [], [], ["This token has already been used for registration"]⟩,
     { demoDB with records := demoDB.records ++
         [⟨"Training Registration", "rec-" ++ toString demoDB.records.length,
           pySet (training_program_map demoTrainingFd).1 "token_id"
             (.str (strTrim "tok12")),
           (training_program_map demoTrainingFd).2⟩] }) :=
  (c6_duplicate_token demoDB "Training Registration" "tok12" "t1" "t2" demoTrainingFd
    ⟨[], [], [], []⟩ (by rfl) (by rfl) (by rfl) (by rfl)).2 []

theorem addFE_other (e : VErrors) (k : String) (m : List String) :
    (addFE e k m).child_table_errors = e.child_table_errors ∧
    (addFE e k m).general = e.general ∧ (addFE e k m).token_id = e.token_id :=
  ⟨rfl, rfl, rfl⟩

theorem checkRequired_other (failF : String → Option Value → Bool)
    (msgF : String → String → List String) (fd : PyDict) :
    ∀ (reqs : List (String × String)) (e : VErrors),
    (checkRequired failF msgF fd reqs e).child_table_errors = e.child_table_errors ∧
    (checkRequired failF msgF fd reqs e).general = e.general ∧
    (checkRequired failF msgF fd reqs e).token_id = e.token_id := by
  intro reqs
  induction reqs with
  | nil => intro e; exact ⟨rfl, rfl, rfl⟩
  | cons p t ih =>
      intro e
      have hstep : checkRequired failF msgF fd (p :: t) e =
          checkRequired failF msgF fd t
            (if failF p.1 (pyGet fd p.1) then addFE e p.1 (msgF p.1 p.2) else e) := rfl
      rw [hstep]
      by_cases hf : failF p.1 (pyGet fd p.1) = true
      · rw [if_pos hf]
        exact ih (addFE e p.1 (msgF p.1 p.2))
      · simp only [Bool.not_eq_true] at hf
        rw [hf]
        simp only [Bool.false_eq_true, if_false]
        exact ih e

theorem checkRequired_fe (failF : String → Option Value → Bool)
    (msgF : String → String → List String) (fd : PyDict) :
    ∀ (reqs : List (String × String)) (e : VErrors),
    (reqs.map Prod.fst).Nodup →
    (∀ p ∈ reqs, p.1 ∉ e.field_errors.map Prod.fst) →
    (checkRequired failF msgF fd reqs e).field_errors =
      e.field_errors ++
        (reqs.filter (fun p => failF p.1 (pyGet fd p.1))).map
          (fun p => (p.1, msgF p.1 p.2)) := by
  intro reqs
  induction reqs with
  | nil => intro e _ _; simp [checkRequired]
  | cons p t ih =>
      intro e hnd hfresh
      simp only [List.map_cons, List.nodup_cons] at hnd
      have hstep : checkRequired failF msgF fd (p :: t) e =
          checkRequired failF msgF fd t
            (if failF p.1 (pyGet fd p.1) then addFE e p.1 (msgF p.1 p.2) else e) := rfl
      rw [hstep]
      by_cases hf : failF p.1 (pyGet fd p.1) = true
      · rw [if_pos hf]
        have hup : (addFE e p.1 (msgF p.1 p.2)).field_errors =
            e.field_errors ++ [(p.1, msgF p.1 p.2)] := by
          simp only [addFE]
          exact upsertA_not_mem _ _ _ (hfresh p (List.mem_cons_self p t))
        have hfresh2 : ∀ q ∈ t,
            q.1 ∉ (addFE e p.1 (msgF p.1 p.2)).field_errors.map Prod.fst := by
          intro q hq
          rw [hup]
          simp only [List.map_append, List.mem_append, List.map_cons, List.map_nil,
            List.mem_cons, List.not_mem_nil, or_false]
          push_neg
          refine ⟨hfresh q (List.mem_cons_of_mem p hq), ?_⟩
          intro hqp
          exact hnd.1 (hqp ▸ List.mem_map_of_mem Prod.fst hq)
        rw [ih (addFE e p.1 (msgF p.1 p.2)) hnd.2 hfresh2, hup]
        simp [List.filter_cons, hf, List.append_assoc]
      · simp only [Bool.not_eq_true] at hf
        rw [hf]
        simp only [Bool.false_eq_true, if_false]
        rw [ih e hnd.2 (fun q hq => hfresh q (List.mem_cons_of_mem p hq))]
        simp [List.filter_cons, hf]

theorem fail_eq_isNone (failF : String → Option Value → Bool)
    (hnone : ∀ f, failF f Option.none = true) (fd : PyDict)
    (reqs : List (String × String)) (hok : presentOkReq failF fd reqs = true) :
    ∀ p ∈ reqs, failF p.1 (pyGet fd p.1) = (pyGet fd p.1).isNone := by
  intro p hp
  rw [presentOkReq, List.all_eq_true] at hok
  have h := hok p hp
  cases hg : pyGet fd p.1 with
  | none => simp [hg, hnone]
  | some v =>
      rw [hg] at h
      simp only [Option.isNone_some, Bool.false_or, Bool.not_eq_true'] at h
      simp [hg, h]

theorem checkRequired_spec (failF : String → Option Value → Bool)
    (msgF : String → String → List String) (fd : PyDict)
    (reqs : List (String × String))
    (hnd : (reqs.map Prod.fst).Nodup)
    (hnone : ∀ f, failF f Option.none = true)
    (hok : presentOkReq failF fd reqs = true)
    (hmiss : (reqs.map Prod.fst).any (fun f => (pyGet fd f).isNone) = true) :
    (checkRequired failF msgF fd reqs VErrors.empty).field_errors.map Prod.fst =
      (reqs.map Prod.fst).filter (fun f => (pyGet fd f).isNone) ∧
    (checkRequired failF msgF fd reqs VErrors.empty).field_errors ≠ [] ∧
    (checkRequired failF msgF fd reqs VErrors.empty).child_table_errors = [] ∧
    (checkRequired failF msgF fd reqs VErrors.empty).general = [] ∧
    (checkRequired failF msgF fd reqs VErrors.empty).token_id = [] := by
  have hfe := checkRequired_fe failF msgF fd reqs VErrors.empty hnd
    (by intro p _; simp [VErrors.empty])
  have hfilt : reqs.filter (fun p => failF p.1 (pyGet fd p.1)) =
      reqs.filter (fun p => (pyGet fd p.1).isNone) :=
    List.filter_congr (fail_eq_isNone failF hnone fd reqs hok)
  have hcomm := filter_map_comm reqs Prod.fst (fun f => (pyGet fd f).isNone)
  have hne : (reqs.map Prod.fst).filter (fun f => (pyGet fd f).isNone) ≠ [] :=
    filter_ne_nil_of_any _ _ hmiss
  constructor
  · rw [hfe, hfilt]
    simp only [VErrors.empty, List.nil_append, List.map_map]
    rw [show (Prod.fst ∘ fun p => (p.1, msgF p.1 p.2)) =
      (Prod.fst : String × String → String) from rfl]
    exact hcomm
  · refine ⟨?_, (checkRequired_other failF msgF fd reqs VErrors.empty).1,
      (checkRequired_other failF msgF fd reqs VErrors.empty).2.1,
      (checkRequired_other failF msgF fd reqs VErrors.empty).2.2⟩
    intro hc
    rw [hfe, hfilt] at hc
    simp only [VErrors.empty, List.nil_append, List.map_eq_nil_iff] at hc
    apply hne
    rw [← hcomm, hc]
    rfl

theorem intRangeCheck_noop (fd : PyDict) (key : String) (lo hi : Int) (label : String)
    (e : VErrors) (h : intRangeProvOk fd key lo hi = true) :
    intRangeCheck fd key lo hi label e = e := by
  cases hg : pyGet fd key with
  | none => simp [intRangeCheck, hg]
  | some v =>
      simp only [intRangeProvOk, hg] at h
      by_cases hv : pyTruthy v = true
      · simp only [hv, Bool.not_true, Bool.false_or] at h
        cases hn : pyInt v with
        | none => rw [hn] at h; simp at h
        | some n =>
            rw [hn] at h
            simp only [decide_eq_true_eq] at h
            simp only [intRangeCheck, hg, hv, if_true, hn]
            rw [if_neg (by
              simp only [Bool.or_eq_true, not_or, decide_eq_true_eq, not_lt]
              omega)]
      · simp only [Bool.not_eq_true] at hv
        simp [intRangeCheck, hg, hv]

theorem phoneCheck9_noop (fd : PyDict) (key : String) (e : VErrors)
    (h : phoneProvOk9 fd key = true) : phoneCheck9 fd key e = some e := by
  cases hg : pyGet fd key with
  | none => simp [phoneCheck9, hg]
  | some v =>
      simp only [phoneProvOk9, hg] at h
      by_cases hv : pyTruthy v = true
      · simp only [hv, Bool.not_true, Bool.false_or] at h
        cases v with
        | str s =>
            simp only [decide_eq_true_eq] at h
            simp only [phoneCheck9, hg, hv, if_true]
            rw [if_neg (by omega)]
        | none => simp at h
        | bool b => simp at h
        | int n => simp at h
        | num q => simp at h
        | list xs => simp at h
        | dict xs => simp at h
      · simp only [Bool.not_eq_true] at hv
        simp [phoneCheck9, hg, hv]

theorem all_not_eq_false_of_any (v : Value) (valid : List String)
    (h : valid.any (fun t => valueEqStr v t) = true) :
    valid.all (fun t => !valueEqStr v t) = false := by
  rw [List.any_eq_true] at h
  obtain ⟨t0, ht0, heq⟩ := h
  cases hA : valid.all (fun t => !valueEqStr v t) with
  | false => rfl
  | true =>
      rw [List.all_eq_true] at hA
      have := hA t0 ht0
      simp [heq] at this

theorem enumCheck_noop (fd : PyDict) (key : String) (valid : List String)
    (msg : String) (e : VErrors) (h : enumProvOk fd key valid = true) :
    enumCheck fd key valid msg e = e := by
  cases hg : pyGet fd key with
  | none => simp [enumCheck, hg]
  | some v =>
      simp only [enumProvOk, hg] at h
      by_cases hv : pyTruthy v = true
      · simp only [hv, Bool.not_true, Bool.false_or] at h
        simp [enumCheck, hg, hv, all_not_eq_false_of_any v valid h]
      · simp only [Bool.not_eq_true] at hv
        simp [enumCheck, hg, hv]

theorem specsCapitalCheck_noop (fd : PyDict) (e : VErrors)
    (h : specsCapitalProvOk fd = true) : specsCapitalCheck fd e = e := by
  cases hg : pyGet fd "capital" with
  | none => simp [specsCapitalCheck, hg]
  | some v =>
      simp only [specsCapitalProvOk, hg] at h
      by_cases hv : pyTruthy v = true
      · simp only [hv, Bool.not_true, Bool.false_or] at h
        cases v with
        | str s =>
            have h2 : (match pyFloatOfString (filterDigitsDots s) with
              | some q => decide (0 ≤ q)
              | Option.none => false) = true := h
            cases hp : pyFloatOfString (filterDigitsDots s) with
            | none => rw [hp] at h2; simp at h2
            | some q =>
                rw [hp] at h2
                simp only [decide_eq_true_eq] at h2
                simp only [specsCapitalCheck, hg, hv, if_true, hp]
                rw [if_neg (by exact not_lt.mpr h2)]
        | none => simp at h
        | bool b => simp at h
        | int n => simp at h
        | num q => simp at h
        | list xs => simp at h
        | dict xs => simp at h
      · simp only [Bool.not_eq_true] at hv
        simp [specsCapitalCheck, hg, hv]

theorem promotePriceCheck_noop (fd : PyDict) (e : VErrors)
    (h : priceProvOk fd = true) : promotePriceCheck fd e = some e := by
  cases hg : pyGet fd "price" with
  | none => simp [promotePriceCheck, hg]
  | some v =>
      simp only [priceProvOk, hg] at h
      by_cases hv : pyTruthy v = true
      · simp only [hv, Bool.not_true, Bool.false_or] at h
        cases v with
        | str s =>
            have h2 : (strTrim s == "" ||
                match pyFloatOfString (filterDigitsDots s) with
                | some q => decide (0 ≤ q)
                | Option.none => false) = true := h
            by_cases hts : strTrim s = ""
            · simp [promotePriceCheck, hg, hv, hts]
            · have hts2 : (strTrim s == "") = false := by
                rw [beq_eq_false_iff_ne]; exact hts
              rw [hts2, Bool.false_or] at h2
              cases hp : pyFloatOfString (filterDigitsDots s) with
              | none => rw [hp] at h2; simp at h2
              | some q =>
                  rw [hp] at h2
                  simp only [decide_eq_true_eq] at h2
                  simp only [promotePriceCheck, hg, hv, if_true, bne_iff_ne, ne_eq,
                    hts, not_false_eq_true, if_true, hp]
                  rw [if_neg (by exact not_lt.mpr h2)]
        | none => simp at h
        | bool b => simp at h
        | int n => simp at h
        | num q => simp at h
        | list xs => simp at h
        | dict xs => simp at h
      · simp only [Bool.not_eq_true] at hv
        simp [promotePriceCheck, hg, hv]

theorem contractEmailCheck_noop (fd : PyDict) (e : VErrors)
    (h : contractEmailProvOk fd = true) : contractEmailCheck fd e = some e := by
  cases hg : pyGet fd "email" with
  | none => simp [contractEmailCheck, hg]
  | some v =>
      simp only [contractEmailProvOk, hg] at h
      by_cases hv : pyTruthy v = true
      · simp only [hv, Bool.not_true, Bool.false_or] at h
        cases v with
        | str s =>
            have h2 : emailMatchSimple s = true := h
            simp [contractEmailCheck, hg, hv, h2]
        | none => simp at h
        | bool b => simp at h
        | int n => simp at h
        | num q => simp at h
        | list xs => simp at h
        | dict xs => simp at h
      · simp only [Bool.not_eq_true] at hv
        simp [contractEmailCheck, hg, hv]

theorem contactEmailCheck_noop (fd : PyDict) (e : VErrors)
    (h : contactEmailProvOk fd = true) : contactEmailCheck fd e = some e := by
  cases hg : pyGet fd "email" with
  | none => simp [contactEmailCheck, hg]
  | some v =>
      simp only [contactEmailProvOk, hg] at h
      by_cases hv : pyTruthy v = true
      · simp only [hv, Bool.not_true, Bool.false_or] at h
        cases v with
        | str s =>
            have h2 : (strTrim s == "" || emailMatchSimple s) = true := h
            by_cases hts : strTrim s = ""
            · simp [contactEmailCheck, hg, hv, hts]
            · have hts2 : (strTrim s == "") = false := by
                rw [beq_eq_false_iff_ne]; exact hts
              rw [hts2, Bool.false_or] at h2
              simp [contactEmailCheck, hg, hv, hts, h2]
        | none => simp at h
        | bool b => simp at h
        | int n => simp at h
        | num q => simp at h
        | list xs => simp at h
        | dict xs => simp at h
      · simp only [Bool.not_eq_true] at hv
        simp [contactEmailCheck, hg, hv]

theorem tsTrainingFieldsCheck_noop (fd : PyDict) (e : VErrors)
    (h : tfProvOk fd = true) : tsTrainingFieldsCheck fd e = some e := by
  cases hg : pyGet fd "trainingFields" with
  | none => simp [tsTrainingFieldsCheck, hg, Option.getD, pyTruthy]
  | some v =>
      simp only [tfProvOk, hg] at h
      cases v with
      | list xs =>
          have h2 : (xs.all (fun f => validTrainingFields.any
              (fun t => valueEqStr f t))) = true := h
          cases hxs : xs with
          | nil => subst hxs; simp [tsTrainingFieldsCheck, hg, pyTruthy]
          | cons a t =>
              subst hxs
              have hinv : (a :: t).filter
                  (fun f => validTrainingFields.all (fun t2 => !valueEqStr f t2)) = [] := by
                rw [List.filter_eq_nil_iff]
                intro x hx
                rw [List.all_eq_true] at h2
                simp [all_not_eq_false_of_any x validTrainingFields (h2 x hx)]
              simp only [tsTrainingFieldsCheck, hg, Option.getD, pyTruthy,
                pyIterate, hinv, List.isEmpty_cons, Bool.not_false, if_true,
                List.isEmpty_nil]
      | none => simp [tsTrainingFieldsCheck, hg, pyTruthy]
      | bool b => simp at h
      | int n => simp at h
      | num q => simp at h
      | str s => simp at h
      | dict xs => simp at h

theorem smallEmailCheck_noop (fd : PyDict) (e : VErrors)
    (h : smallEmailProvOk fd = true) : smallEmailCheck fd e = some e := by
  cases hg : pyGet fd "email" with
  | none => simp [smallEmailCheck, hg]
  | some v =>
      simp only [smallEmailProvOk, hg] at h
      by_cases hv : pyTruthy v = true
      · simp only [hv, Bool.not_true, Bool.false_or] at h
        cases hve : validate_email v with
        | none => rw [hve] at h; simp at h
        | some r =>
            rw [hve] at h
            simp only at h
            simp [smallEmailCheck, hg, hv, hve, h]
      · simp only [Bool.not_eq_true] at hv
        simp [smallEmailCheck, hg, hv]

theorem smallAgeCheck_noop (fd : PyDict) (e : VErrors)
    (h : intRangeProvOk fd "age" 18 100 = true) : smallAgeCheck fd e = e := by
  cases hg : pyGet fd "age" with
  | none => simp [smallAgeCheck, hg]
  | some v =>
      simp only [intRangeProvOk, hg] at h
      by_cases hv : pyTruthy v = true
      · simp only [hv, Bool.not_true, Bool.false_or] at h
        cases hn : pyInt v with
        | none => rw [hn] at h; simp at h
        | some n =>
            rw [hn] at h
            simp only [decide_eq_true_eq] at h
            have hva : (validate_age v 18 100).1 = true := by
              simp only [validate_age, hv, Bool.not_true, Bool.false_eq_true, if_false,
                hn]
              rw [if_neg (by
                simp only [Bool.or_eq_true, not_or, decide_eq_true_eq, not_lt]
                omega)]
            simp only [smallAgeCheck, hg, hv, if_true]
            rw [if_pos hva]
      · simp only [Bool.not_eq_true] at hv
        simp [smallAgeCheck, hg, hv]

theorem smallCapitalCheck_noop (fd : PyDict) (e : VErrors)
    (h : smallCapitalProvOk fd = true) : smallCapitalCheck fd e = e := by
  cases hg : pyGet fd "capital" with
  | none => simp [smallCapitalCheck, hg]
  | some v =>
      simp only [smallCapitalProvOk, hg] at h
      by_cases hv : pyTruthy v = true
      · simp only [hv, Bool.not_true, Bool.false_or] at h
        simp only [smallCapitalCheck, hg, hv, if_true]
        rw [if_pos h]
      · simp only [Bool.not_eq_true] at hv
        simp [smallCapitalCheck, hg, hv]

theorem smallWorkersCheck_noop (fd : PyDict) (e : VErrors)
    (h : smallWorkersProvOk fd = true) : smallWorkersCheck fd e = e := by
  cases hg : pyGet fd "workersCount" with
  | none => simp [smallWorkersCheck, hg]
  | some v =>
      simp only [smallWorkersProvOk, hg] at h
      by_cases hv : pyTruthy v = true
      · simp only [hv, Bool.not_true, Bool.false_or] at h
        cases hn : pyInt v with
        | none => rw [hn] at h; simp at h
        | some n =>
            rw [hn] at h
            simp only [decide_eq_true_eq] at h
            simp only [smallWorkersCheck, hg, hv, if_true, hn]
            rw [if_neg (by omega)]
      · simp only [Bool.not_eq_true] at hv
        simp [smallWorkersCheck, hg, hv]

theorem smallPhoneCheck_noop (fd : PyDict) (e : VErrors)
    (h : smallPhoneProvOk fd = true) : smallPhoneCheck fd e = e := by
  cases hg : pyGet fd "primaryPhone" with
  | none => simp [smallPhoneCheck, hg]
  | some v =>
      simp only [smallPhoneProvOk, hg] at h
      by_cases hv : pyTruthy v = true
      · simp only [hv, Bool.not_true, Bool.false_or] at h
        simp only [smallPhoneCheck, hg, hv, if_true]
        rw [if_pos h]
      · simp only [Bool.not_eq_true] at hv
        simp [smallPhoneCheck, hg, hv]

theorem smallStatusStep_noop (fd : PyDict) (e : VErrors)
    (h : smallStatusProvOk fd = true) :
    ∃ fd2, smallStatusStep fd e = some (fd2, e) := by
  cases hg : pyGet fd "projectStatus" with
  | none => exact ⟨fd, by simp [smallStatusStep, hg]⟩
  | some v =>
      simp only [smallStatusProvOk, hg] at h
      by_cases hv : pyTruthy v = true
      · simp only [hv, Bool.not_true, Bool.false_or] at h
        cases hf : statusMapping.find? (fun p => valueEqStr v p.1) with
        | some p =>
            refine ⟨pySet fd "projectStatus" (.str p.2), ?_⟩
            cases v with
            | list xs => simp at h
            | dict xs => simp at h
            | none => simp [smallStatusStep, hg, hv, hf]
            | bool b => simp [smallStatusStep, hg, hv, hf]
            | int n => simp [smallStatusStep, hg, hv, hf]
            | num q => simp [smallStatusStep, hg, hv, hf]
            | str s => simp [smallStatusStep, hg, hv, hf]
        | none =>
            have hnm : statusMapping.any (fun p => valueEqStr v p.1) = false := by
              rw [List.find?_eq_none] at hf
              cases hA : statusMapping.any (fun p => valueEqStr v p.1) with
              | false => rfl
              | true =>
                  rw [List.any_eq_true] at hA
                  obtain ⟨p, hp, hep⟩ := hA
                  exact absurd hep (by simpa using hf p hp)
            refine ⟨fd, ?_⟩
            cases v with
            | list xs => simp at h
            | dict xs => simp at h
            | none =>
                have h2 : (["Open", "Approved", "Rejected", "Cancelled"].any
                    (fun t => valueEqStr Value.none t)) = true := by
                  have h3 : (statusMapping.any (fun p => valueEqStr Value.none p.1) ||
                      (["Open", "Approved", "Rejected", "Cancelled"].any
                        (fun t => valueEqStr Value.none t))) = true := h
                  rw [hnm, Bool.false_or] at h3
                  exact h3
                simp [smallStatusStep, hg, hv, hf,
                  all_not_eq_false_of_any Value.none _ h2]
            | bool b =>
                have h2 : (["Open", "Approved", "Rejected", "Cancelled"].any
                    (fun t => valueEqStr (Value.bool b) t)) = true := by
                  have h3 : (statusMapping.any (fun p => valueEqStr (Value.bool b) p.1) ||
                      (["Open", "Approved", "Rejected", "Cancelled"].any
                        (fun t => valueEqStr (Value.bool b) t))) = true := h
                  rw [hnm, Bool.false_or] at h3
                  exact h3
                simp [smallStatusStep, hg, hv, hf,
                  all_not_eq_false_of_any (Value.bool b) _ h2]
            | int n =>
                have h2 : (["Open", "Approved", "Rejected", "Cancelled"].any
                    (fun t => valueEqStr (Value.int n) t)) = true := by
                  have h3 : (statusMapping.any (fun p => valueEqStr (Value.int n) p.1) ||
                      (["Open", "Approved", "Rejected", "Cancelled"].any
                        (fun t => valueEqStr (Value.int n) t))) = true := h
                  rw [hnm, Bool.false_or] at h3
                  exact h3
                simp [smallStatusStep, hg, hv, hf,
                  all_not_eq_false_of_any (Value.int n) _ h2]
            | num q =>
                have h2 : (["Open", "Approved", "Rejected", "Cancelled"].any
                    (fun t => valueEqStr (Value.num q) t)) = true := by
                  have h3 : (statusMapping.any (fun p => valueEqStr (Value.num q) p.1) ||
                      (["Open", "Approved", "Rejected", "Cancelled"].any
                        (fun t => valueEqStr (Value.num q) t))) = true := h
                  rw [hnm, Bool.false_or] at h3
                  exact h3
                simp [smallStatusStep, hg, hv, hf,
                  all_not_eq_false_of_any (Value.num q) _ h2]
            | str s =>
                have h2 : (["Open", "Approved", "Rejected", "Cancelled"].any
                    (fun t => valueEqStr (Value.str s) t)) = true := by
                  have h3 : (statusMapping.any (fun p => valueEqStr (Value.str s) p.1) ||
                      (["Open", "Approved", "Rejected", "Cancelled"].any
                        (fun t => valueEqStr (Value.str s) t))) = true := h
                  rw [hnm, Bool.false_or] at h3
                  exact h3
                simp [smallStatusStep, hg, hv, hf,
                  all_not_eq_false_of_any (Value.str s) _ h2]
      · simp only [Bool.not_eq_true] at hv
        exact ⟨fd, by simp [smallStatusStep, hg, hv]⟩

theorem smallChildTableStep_proj (cy : Int) (fd : PyDict) :
    ∀ e : VErrors,
    (smallChildTableStep cy fd e).field_errors = e.field_errors ∧
    (smallChildTableStep cy fd e).general = e.general ∧
    (smallChildTableStep cy fd e).token_id = e.token_id := by
  unfold smallChildTableStep
  generalize process_child_tables cy microEnterpriseConfigs fd = l
  induction l with
  | nil => intro e; exact ⟨rfl, rfl, rfl⟩
  | cons p t ih =>
      intro e
      simp only [List.foldl_cons]
      by_cases hr : (validate_child_table_data cy microEnterpriseConfigs p.1 p.2).1 = true
      · simp only [hr, Bool.not_true, Bool.false_eq_true, if_false]
        exact ih e
      · simp only [Bool.not_eq_true] at hr
        simp only [hr, Bool.not_false, if_true]
        exact ih _

theorem training_shape_spec (reqs : List (String × String)) (fd : PyDict)
    (hnd : (reqs.map Prod.fst).Nodup)
    (hok1 : presentOkReq (fun _ v => reqFailPy v) fd reqs = true)
    (hok2 : intRangeProvOk fd "age" 16 100 = true)
    (hok3 : phoneProvOk9 fd "phone" = true)
    (hmiss : ((reqs.map Prod.fst).any fun f => (pyGet fd f).isNone) = true) :
    ((phoneCheck9 fd "phone" (intRangeCheck fd "age" 16 100 "Age"
        (checkRequired (fun _ v => reqFailPy v) stdMsgF fd reqs VErrors.empty))).map
      (fun e => (e.numKeys == 0, e))).map
        (fun r => (r.1, r.2.field_errors.map Prod.fst)) =
    some (false, (reqs.map Prod.fst).filter (fun f => (pyGet fd f).isNone)) := by
  have hspec := checkRequired_spec (fun _ v => reqFailPy v) stdMsgF fd reqs hnd
    (fun _ => rfl) hok1 hmiss
  rw [intRangeCheck_noop _ _ _ _ _ _ hok2, phoneCheck9_noop _ _ _ hok3]
  simp only [Option.map_some']
  rw [numKeys_ne_zero_of_fe _ hspec.2.1, hspec.1]

theorem c5_training_program_spec (fd : PyDict) (hok : providedOkTP fd = true)
    (hmiss : ((trainingRequired.map Prod.fst).any fun f => (pyGet fd f).isNone) = true) :
    (training_program_validate fd).map (fun r => (r.1, r.2.field_errors.map Prod.fst)) =
    some (false, (trainingRequired.map Prod.fst).filter (fun f => (pyGet fd f).isNone)) := by
  simp only [providedOkTP, Bool.and_eq_true] at hok
  exact training_shape_spec trainingRequired fd (by decide) hok.1.1 hok.1.2 hok.2 hmiss

theorem c5_volunteer_spec (fd : PyDict) (hok : providedOkVP fd = true)
    (hmiss : ((volunteerRequired.map Prod.fst).any fun f => (pyGet fd f).isNone) = true) :
    (volunteer_program_validate fd).map (fun r => (r.1, r.2.field_errors.map Prod.fst)) =
    some (false, (volunteerRequired.map Prod.fst).filter (fun f => (pyGet fd f).isNone)) := by
  simp only [providedOkVP, Bool.and_eq_true] at hok
  exact training_shape_spec volunteerRequired fd (by decide) hok.1.1 hok.1.2 hok.2 hmiss

theorem c5_training_ad_spec (fd : PyDict) (hok : providedOkTA fd = true)
    (hmiss : ((trainingRequired.map Prod.fst).any fun f => (pyGet fd f).isNone) = true) :
    (training_ad_validate fd).map (fun r => (r.1, r.2.field_errors.map Prod.fst)) =
    some (false, (trainingRequired.map Prod.fst).filter (fun f => (pyGet fd f).isNone)) := by
  simp only [providedOkTA, Bool.and_eq_true] at hok
  exact training_shape_spec trainingRequired fd (by decide) hok.1.1 hok.1.2 hok.2 hmiss

theorem c5_training_service_spec (fd : PyDict) (hok : providedOkTS fd = true)
    (hmiss : ((trainingServiceRequired.map Prod.fst).any
      fun f => (pyGet fd f).isNone) = true) :
    (training_service_validate fd).map (fun r => (r.1, r.2.field_errors.map Prod.fst)) =
    some (false, (trainingServiceRequired.map Prod.fst).filter
      (fun f => (pyGet fd f).isNone)) := by
  simp only [providedOkTS, Bool.and_eq_true] at hok
  obtain ⟨⟨⟨h1, h2⟩, h3⟩, h4⟩ := hok
  have hnone : ∀ f, tsFailF f Option.none = true := by
    intro f
    unfold tsFailF
    by_cases hf : (f == "trainingFields") = true
    · simp [hf, tfFail]
    · simp only [Bool.not_eq_true] at hf
      simp [hf, reqFailPy]
  have hspec := checkRequired_spec tsFailF tsMsgF fd trainingServiceRequired
    (by decide) hnone h1 hmiss
  simp only [training_service_validate]
  rw [intRangeCheck_noop _ _ _ _ _ _ h2, phoneCheck9_noop _ _ _ h3]
  simp only [tsTrainingFieldsCheck_noop _ _ h4, Option.map_some']
  rw [numKeys_ne_zero_of_fe _ hspec.2.1, hspec.1]

theorem c5_promote_spec (fd : PyDict) (hok : providedOkPP fd = true)
    (hmiss : ((promoteRequired.map Prod.fst).any fun f => (pyGet fd f).isNone) = true) :
    (promote_project_validate fd).map (fun r => (r.1, r.2.field_errors.map Prod.fst)) =
    some (false, (promoteRequired.map Prod.fst).filter (fun f => (pyGet fd f).isNone)) := by
  simp only [providedOkPP, Bool.and_eq_true] at hok
  have hspec := checkRequired_spec (fun _ v => reqFailPy v) stdMsgF fd promoteRequired
    (by decide) (fun _ => rfl) hok.1 hmiss
  simp only [promote_project_validate]
  rw [promotePriceCheck_noop _ _ hok.2]
  simp only [Option.map_some']
  rw [numKeys_ne_zero_of_fe _ hspec.2.1, hspec.1]

theorem c5_specs_spec (fd : PyDict) (hok : providedOkSM fd = true)
    (hmiss : ((specsRequired.map Prod.fst).any fun f => (pyGet fd f).isNone) = true) :
    (specs_memo_validate fd).map (fun r => (r.1, r.2.field_errors.map Prod.fst)) =
    some (false, (specsRequired.map Prod.fst).filter (fun f => (pyGet fd f).isNone)) := by
  simp only [providedOkSM, Bool.and_eq_true] at hok
  obtain ⟨⟨⟨⟨⟨⟨h1, h2⟩, h3⟩, h4⟩, h5⟩, h6⟩, h7⟩ := hok
  have hspec := checkRequired_spec (fun _ v => reqFailPy v) stdMsgF fd specsRequired
    (by decide) (fun _ => rfl) h1 hmiss
  simp only [specs_memo_validate]
  rw [enumCheck_noop _ _ _ _ _ h2, enumCheck_noop _ _ _ _ _ h3,
    enumCheck_noop _ _ _ _ _ h4, enumCheck_noop _ _ _ _ _ h5,
    phoneCheck9_noop _ _ _ h6]
  simp only [specsCapitalCheck_noop _ _ h7, Option.map_some']
  rw [numKeys_ne_zero_of_fe _ hspec.2.1, hspec.1]

theorem c5_contract_spec (fd : PyDict) (hok : providedOkCO fd = true)
    (hmiss : ((contractRequired.map Prod.fst).any fun f => (pyGet fd f).isNone) = true) :
    (contract_opportunity_validate fd).map
      (fun r => (r.1, r.2.field_errors.map Prod.fst)) =
    some (false, (contractRequired.map Prod.fst).filter (fun f => (pyGet fd f).isNone)) := by
  simp only [providedOkCO, Bool.and_eq_true] at hok
  obtain ⟨⟨⟨h1, h2⟩, h3⟩, h4⟩ := hok
  have hspec := checkRequired_spec (fun _ v => reqFailPy v) stdMsgF fd contractRequired
    (by decide) (fun _ => rfl) h1 hmiss
  simp only [contract_opportunity_validate]
  rw [contractEmailCheck_noop _ _ h2]
  simp only []
  rw [phoneCheck9_noop _ _ _ h3]
  simp only [intRangeCheck_noop _ _ _ _ _ _ h4, Option.map_some']
  rw [numKeys_ne_zero_of_fe _ hspec.2.1, hspec.1]

theorem c5_contact_spec (fd : PyDict) (hok : providedOkCF fd = true)
    (hmiss : ((contactRequired.map Prod.fst).any fun f => (pyGet fd f).isNone) = true) :
    (contact_form_validate fd).map (fun r => (r.1, r.2.field_errors.map Prod.fst)) =
    some (false, (contactRequired.map Prod.fst).filter (fun f => (pyGet fd f).isNone)) := by
  simp only [providedOkCF, Bool.and_eq_true] at hok
  obtain ⟨⟨h1, h2⟩, h3⟩ := hok
  have hspec := checkRequired_spec (fun _ v => reqFailPy v) stdMsgF fd contactRequired
    (by decide) (fun _ => rfl) h1 hmiss
  simp only [contact_form_validate]
  rw [contactEmailCheck_noop _ _ h2]
  simp only []
  rw [phoneCheck9_noop _ _ _ h3]
  simp only [Option.map_some']
  rw [numKeys_ne_zero_of_fe _ hspec.2.1, hspec.1]

theorem c5_small_spec (cy : Int) (fd : PyDict) (hok : providedOkSmall fd = true)
    (hmiss : ((smallRequired.map Prod.fst).any fun f => (pyGet fd f).isNone) = true) :
    ((small_project_validate cy fd).map (fun r => (r.2.1, r.2.2))).map
      (fun r => (r.1, r.2.field_errors.map Prod.fst)) =
    some (false, (smallRequired.map Prod.fst).filter (fun f => (pyGet fd f).isNone)) := by
  simp only [providedOkSmall, Bool.and_eq_true] at hok
  obtain ⟨⟨⟨⟨⟨⟨h1, h2⟩, h3⟩, h4⟩, h5⟩, h6⟩, h7⟩ := hok
  have hspec := checkRequired_spec (fun _ v => vrfFail v) stdMsgF fd smallRequired
    (by decide) (fun _ => rfl) h1 hmiss
  simp only [small_project_validate]
  rw [smallEmailCheck_noop _ _ h2]
  simp only [smallAgeCheck_noop _ _ h3, smallCapitalCheck_noop _ _ h4,
    smallWorkersCheck_noop _ _ h5, smallPhoneCheck_noop _ _ h6]
  obtain ⟨fd2, hss⟩ := smallStatusStep_noop fd
    (checkRequired (fun _ v => vrfFail v) stdMsgF fd smallRequired VErrors.empty) h7
  rw [hss]
  simp only [Option.map_some']
  have hproj := smallChildTableStep_proj cy fd2
    (checkRequired (fun _ v => vrfFail v) stdMsgF fd smallRequired VErrors.empty)
  rw [numKeys_ne_zero_of_fe _ (by rw [hproj.1]; exact hspec.2.1)]
  rw [hproj.1, hspec.1]

/-- C5.  For every supported form type: a submission that omits one or more of
that type's required fields, all provided fields being valid, is rejected, and
the keys of the rejection's `field_errors` mapping are exactly the omitted
required field names (in declaration order). -/
theorem c5_missing_required_rejected (ft : String) (hft : ft ∈ supportedFormTypes)
    (cy : Int) (fd : PyDict) (hok : providedOk ft fd = true)
    (hmiss : ((requiredFieldNames ft).any fun f => (pyGet fd f).isNone) = true) :
    (validateFormData cy ft fd).map (fun r => (r.1, r.2.field_errors.map Prod.fst)) =
      some (false, (requiredFieldNames ft).filter (fun f => (pyGet fd f).isNone)) := by
  simp only [supportedFormTypes, List.mem_cons, List.not_mem_nil, or_false] at hft
  rcases hft with rfl | rfl | rfl | rfl | rfl | rfl | rfl | rfl | rfl
  · exact c5_small_spec cy fd hok hmiss
  · exact c5_training_program_spec fd hok hmiss
  · exact c5_volunteer_spec fd hok hmiss
  · exact c5_training_service_spec fd hok hmiss
  · exact c5_training_ad_spec fd hok hmiss
  · exact c5_promote_spec fd hok hmiss
  · exact c5_specs_spec fd hok hmiss
  · exact c5_contract_spec fd hok hmiss
  · exact c5_contact_spec fd hok hmiss

/-- Witness for C5: a training-program submission providing only a valid
`fullName` is rejected with field_errors keys exactly
`phone`, `city`, `age`. -/
theorem c5_missing_required_rejected_witness :
    (validateFormData 2026 "training-program" [("fullName", Value.str "Ali")]).map
      (fun r => (r.1, r.2.field_errors.map Prod.fst)) =
    some (false, ["phone", "city", "age"]) := by
  have h := c5_missing_required_rejected "training-program" (by decide) 2026
    [("fullName", Value.str "Ali")] (by rfl) (by rfl)
  rw [h]
  rfl
